import Mathlib

/-!
Verification development for the hpa-exporter repository.

The repository contains four variants of the same exporter:
* `main.go` (modelled in namespace `V1`): autoscaling/v1, publishes base
  series only, gated on three optional fields being present;
* `part_002` (naive annotation variant, subsumed by `V3` without the cache);
* `part_003` (modelled in namespace `V3`): annotation-based variant with a
  per-autoscaler-name cache of previously emitted condition label sets and a
  delete-before-set discipline;
* `part_004` (modelled in namespace `V4`): autoscaling/v2beta1 variant that
  resets the whole registry at the start of each successful tick.

Modelling conventions:
* A Prometheus `GaugeVec` is modelled as a function from its (structured)
  label set to `Option ℚ`; `some v` means the series exists with value `v`.
  `With(l).Set(v)` is a pointwise update to `some v`, `Delete(l)` an update
  to `none`, `Reset()` the constant-`none` map.  Gauge values are modelled
  as exact rationals: every numeric operation the code performs on them
  (integer promotion, division by 1000) is exact at the relevant inputs.
* `prometheus.Labels` maps always carry a fixed key set per family, so they
  are modelled as structures (`BaseLabels`, `CondLabels`, `MetricLabels`);
  `mergeLabels` of a base map and a condition map is modelled by pairing.
  A `Delete` called with an incomplete label map (the Go zero-value map
  obtained from a cache miss) matches no series and is a no-op; the caches
  are therefore modelled as `String → Option CondLabels` and a `none` old
  label yields the identity on the registry.
* Go `int32`/`int64` fields are modelled as `Int` (no claim involves
  overflow); `*int32` and `*meta_v1.Time` fields as `Option Int`.
* `json.Unmarshal` of an annotation payload is modelled by carrying the
  parse outcome on the snapshot (`Option` of the parsed list, `none` for a
  malformed payload); the claims under study only depend on the success or
  failure of the parse, not on the JSON grammar itself.
-/

namespace HpaExporter

/-- The base label set `labels` / `baseLabels` shared by every family:
hpa_name, hpa_namespace, ref_kind, ref_name, ref_apiversion. -/
structure BaseLabels where
  hpa_name : String
  hpa_namespace : String
  ref_kind : String
  ref_name : String
  ref_apiversion : String
deriving DecidableEq, Repr

/-- The condition label set `annoLabels`: cond_status, cond_reason,
cond_message. -/
structure CondLabels where
  cond_status : String
  cond_reason : String
  cond_message : String
deriving DecidableEq, Repr

/-- The metric label set `metricLabels`: metric_kind, metric_name,
metric_metricname. -/
structure MetricLabels where
  metric_kind : String
  metric_name : String
  metric_metricname : String
deriving DecidableEq, Repr

/-- Pointwise update of a function map (used for both gauge registries and
the condition-label caches). -/
def upd {κ α : Type} [DecidableEq κ] (m : κ → Option α) (k : κ) (v : Option α) :
    κ → Option α :=
  fun k' => if k' = k then v else m k'

theorem upd_self {κ α : Type} [DecidableEq κ] (m : κ → Option α) (k : κ) (v : Option α) :
    upd m k v k = v := by
  simp [upd]

theorem upd_ne {κ α : Type} [DecidableEq κ] (m : κ → Option α) (k k' : κ) (v : Option α)
    (h : k' ≠ k) : upd m k v k' = m k' := by
  simp [upd, h]

theorem upd_upd {κ α : Type} [DecidableEq κ] (m : κ → Option α) (k : κ) (v w : Option α) :
    upd (upd m k v) k w = upd m k w := by
  funext k'
  by_cases h : k' = k <;> simp [upd, h]

theorem upd_apply {κ α : Type} [DecidableEq κ] (m : κ → Option α) (k k' : κ) (v : Option α) :
    upd m k v k' = if k' = k then v else m k' := rfl

end HpaExporter

namespace HpaExporter.V4

open HpaExporter

/-- `as_v2.HorizontalPodAutoscalerCondition` as used by `part_004`:
type, status (a string-typed `core_v1.ConditionStatus`), reason, message.
The `lastTransitionTime` field is never read by the exporter. -/
structure HpaCondition where
  type : String
  status : String
  reason : String
  message : String
deriving DecidableEq, Repr

/-- Go constants `core_v1.ConditionTrue` / `core_v1.ConditionFalse`. -/
def conditionTrue : String := "True"

/-- Go constant `core_v1.ConditionFalse`. -/
def conditionFalse : String := "False"

/-- Model of `makeAnnotationCondLabels` from `part_004`: the forward label
set carries the observed status/reason/message, the reverse label set
carries the negated status with empty reason and message. -/
def makeAnnotCondLabels (cond : HpaCondition) : CondLabels × CondLabels :=
  let labelForward : CondLabels :=
    { cond_status := cond.status
      cond_reason := cond.reason
      cond_message := cond.message }
  let statusReverse : String :=
    if cond.status = conditionTrue then conditionFalse else conditionTrue
  let labelReverse : CondLabels :=
    { cond_status := statusReverse
      cond_reason := ""
      cond_message := "" }
  (labelForward, labelReverse)

/-- `as_v2.ObjectMetricSource`: target object reference, metric name and
target value (a resource.Quantity, carried as its `MilliValue()`). -/
structure ObjectMetricSource where
  targetKind : String
  targetName : String
  metricName : String
  targetValueMilli : Int
deriving DecidableEq, Repr

/-- `as_v2.PodsMetricSource`. -/
structure PodsMetricSource where
  metricName : String
  targetAverageValueMilli : Int
deriving DecidableEq, Repr

/-- `as_v2.ResourceMetricSource`: resource name, optional target average
utilization (`*int32`), target average value quantity. -/
structure ResourceMetricSource where
  name : String
  targetAverageUtilization : Option Int
  targetAverageValueMilli : Int
deriving DecidableEq, Repr

/-- `as_v2.ExternalMetricSource`: optional target average value quantity
(`*resource.Quantity`), target value quantity. -/
structure ExternalMetricSource where
  metricName : String
  targetAverageValueMilli : Option Int
  targetValueMilli : Int
deriving DecidableEq, Repr

/-- `as_v2.MetricSpec`: a type tag together with the per-kind payloads.
In the Go struct the payloads are pointers that are non-nil exactly for
the tagged kind; the claims under study never exercise a nil payload of
the tagged kind, so the payloads are modelled total. -/
structure MetricSpec where
  type : String
  object : ObjectMetricSource
  pods : PodsMetricSource
  resource : ResourceMetricSource
  external : ExternalMetricSource
deriving DecidableEq, Repr

/-- `as_v2.ObjectMetricStatus`. -/
structure ObjectMetricStatus where
  targetKind : String
  targetName : String
  metricName : String
  currentValueMilli : Int
deriving DecidableEq, Repr

/-- `as_v2.PodsMetricStatus`. -/
structure PodsMetricStatus where
  metricName : String
  currentAverageValueMilli : Int
deriving DecidableEq, Repr

/-- `as_v2.ResourceMetricStatus`. -/
structure ResourceMetricStatus where
  name : String
  currentAverageUtilization : Option Int
  currentAverageValueMilli : Int
deriving DecidableEq, Repr

/-- `as_v2.ExternalMetricStatus`. -/
structure ExternalMetricStatus where
  metricName : String
  currentAverageValueMilli : Option Int
  currentValueMilli : Int
deriving DecidableEq, Repr

/-- `as_v2.MetricStatus`, with the same total-payload convention as
`MetricSpec`. -/
structure MetricStatus where
  type : String
  object : ObjectMetricStatus
  pods : PodsMetricStatus
  resource : ResourceMetricStatus
  external : ExternalMetricStatus
deriving DecidableEq, Repr

/-- The `commonMetrics` struct of `part_004`. -/
structure CommonMetrics where
  Kind : String
  Name : String
  MetricName : String
  Value : ℚ
deriving DecidableEq, Repr

/-- `parseObjectSpec` from `part_004`: value is the milli-quantity divided
by 1000. -/
def parseObjectSpec (m : ObjectMetricSource) : CommonMetrics :=
  { Kind := m.targetKind
    Name := m.targetName
    MetricName := m.metricName
    Value := (m.targetValueMilli : ℚ) / 1000 }

/-- `parsePodsSpec` from `part_004`. -/
def parsePodsSpec (m : PodsMetricSource) : CommonMetrics :=
  { Kind := "Pod"
    Name := "-"
    MetricName := m.metricName
    Value := (m.targetAverageValueMilli : ℚ) / 1000 }

/-- `parseResourceSpec` from `part_004`: utilization percentage when
present (promoted to float), otherwise the average-value milli-quantity
divided by 1000; metric name is synthetic "-". -/
def parseResourceSpec (m : ResourceMetricSource) : CommonMetrics :=
  let t : ℚ :=
    match m.targetAverageUtilization with
    | none => (m.targetAverageValueMilli : ℚ) / 1000
    | some u => (u : ℚ)
  { Kind := "Resource"
    Name := m.name
    MetricName := "-"
    Value := t }

/-- `parseExternalSpec` from `part_004`. -/
def parseExternalSpec (m : ExternalMetricSource) : CommonMetrics :=
  let t : ℚ :=
    match m.targetAverageValueMilli with
    | none => (m.targetValueMilli : ℚ) / 1000
    | some v => (v : ℚ) / 1000
  { Kind := "External"
    Name := "-"
    MetricName := m.metricName
    Value := t }

/-- `parseObjectStatus` from `part_004`. -/
def parseObjectStatus (m : ObjectMetricStatus) : CommonMetrics :=
  { Kind := m.targetKind
    Name := m.targetName
    MetricName := m.metricName
    Value := (m.currentValueMilli : ℚ) / 1000 }

/-- `parsePodsStatus` from `part_004`. -/
def parsePodsStatus (m : PodsMetricStatus) : CommonMetrics :=
  { Kind := "Pod"
    Name := "-"
    MetricName := m.metricName
    Value := (m.currentAverageValueMilli : ℚ) / 1000 }

/-- `parseResourceStatus` from `part_004`. -/
def parseResourceStatus (m : ResourceMetricStatus) : CommonMetrics :=
  let t : ℚ :=
    match m.currentAverageUtilization with
    | none => (m.currentAverageValueMilli : ℚ) / 1000
    | some u => (u : ℚ)
  { Kind := "Resource"
    Name := m.name
    MetricName := "-"
    Value := t }

/-- `parseExternalStatus` from `part_004`. -/
def parseExternalStatus (m : ExternalMetricStatus) : CommonMetrics :=
  let t : ℚ :=
    match m.currentAverageValueMilli with
    | none => (m.currentValueMilli : ℚ) / 1000
    | some v => (v : ℚ) / 1000
  { Kind := "External"
    Name := "-"
    MetricName := m.metricName
    Value := t }

/-- `parseCommonMetrics` from `part_004`: the gauge value and the metric
label set. -/
def parseCommonMetrics (m : CommonMetrics) : ℚ × MetricLabels :=
  (m.Value,
   { metric_kind := m.Kind
     metric_name := m.Name
     metric_metricname := m.MetricName })

/-- `as_v2.HorizontalPodAutoscaler` restricted to the fields `part_004`
reads. -/
structure Hpa where
  name : String
  hpaNamespace : String
  refKind : String
  refName : String
  refApiVersion : String
  currentReplicas : Int
  desiredReplicas : Int
  minReplicas : Option Int
  maxReplicas : Int
  lastScaleTimeUnix : Option Int
  specMetrics : List MetricSpec
  currentMetrics : List MetricStatus
  conditions : List HpaCondition
deriving DecidableEq, Repr

/-- The base label map built at the top of the per-autoscaler loop. -/
def baseLabelOf (a : Hpa) : BaseLabels :=
  { hpa_name := a.name
    hpa_namespace := a.hpaNamespace
    ref_kind := a.refKind
    ref_name := a.refName
    ref_apiversion := a.refApiVersion }

/-- The ten gauge families registered by `part_004` (the `collectors`
slice), each modelled as a label-set-indexed map of optional values. -/
structure RegState where
  hpaCurrentPodsNum : BaseLabels → Option ℚ
  hpaDesiredPodsNum : BaseLabels → Option ℚ
  hpaMinPodsNum : BaseLabels → Option ℚ
  hpaMaxPodsNum : BaseLabels → Option ℚ
  hpaLastScaleSecond : BaseLabels → Option ℚ
  hpaCurrentMetricsValue : BaseLabels × MetricLabels → Option ℚ
  hpaTargetMetricsValue : BaseLabels × MetricLabels → Option ℚ
  hpaAbleToScale : BaseLabels × CondLabels → Option ℚ
  hpaScalingActive : BaseLabels × CondLabels → Option ℚ
  hpaScalingLimited : BaseLabels × CondLabels → Option ℚ

/-- `resetAllMetric` from `part_004`: `Reset()` on every collector, i.e.
every family becomes empty. -/
def resetAllMetric : RegState :=
  { hpaCurrentPodsNum := fun _ => none
    hpaDesiredPodsNum := fun _ => none
    hpaMinPodsNum := fun _ => none
    hpaMaxPodsNum := fun _ => none
    hpaLastScaleSecond := fun _ => none
    hpaCurrentMetricsValue := fun _ => none
    hpaTargetMetricsValue := fun _ => none
    hpaAbleToScale := fun _ => none
    hpaScalingActive := fun _ => none
    hpaScalingLimited := fun _ => none }

/-- One iteration of the `a.Spec.Metrics` loop of `part_004`'s main:
switch on the metric type, publish to `hpaTargetMetricsValue` for the four
known kinds, skip anything else (`default: continue`). -/
def processSpecMetric (b : BaseLabels) (r : RegState) (metric : MetricSpec) : RegState :=
  if metric.type = "Object" then
    let vl := parseCommonMetrics (parseObjectSpec metric.object)
    { r with hpaTargetMetricsValue := upd r.hpaTargetMetricsValue (b, vl.2) (some vl.1) }
  else if metric.type = "Pods" then
    let vl := parseCommonMetrics (parsePodsSpec metric.pods)
    { r with hpaTargetMetricsValue := upd r.hpaTargetMetricsValue (b, vl.2) (some vl.1) }
  else if metric.type = "Resource" then
    let vl := parseCommonMetrics (parseResourceSpec metric.resource)
    { r with hpaTargetMetricsValue := upd r.hpaTargetMetricsValue (b, vl.2) (some vl.1) }
  else if metric.type = "External" then
    let vl := parseCommonMetrics (parseExternalSpec metric.external)
    { r with hpaTargetMetricsValue := upd r.hpaTargetMetricsValue (b, vl.2) (some vl.1) }
  else
    r

/-- One iteration of the `a.Status.CurrentMetrics` loop of `part_004`'s
main: same switch shape, publishing to `hpaCurrentMetricsValue`. -/
def processStatusMetric (b : BaseLabels) (r : RegState) (metric : MetricStatus) : RegState :=
  if metric.type = "Object" then
    let vl := parseCommonMetrics (parseObjectStatus metric.object)
    { r with hpaCurrentMetricsValue := upd r.hpaCurrentMetricsValue (b, vl.2) (some vl.1) }
  else if metric.type = "Pods" then
    let vl := parseCommonMetrics (parsePodsStatus metric.pods)
    { r with hpaCurrentMetricsValue := upd r.hpaCurrentMetricsValue (b, vl.2) (some vl.1) }
  else if metric.type = "Resource" then
    let vl := parseCommonMetrics (parseResourceStatus metric.resource)
    { r with hpaCurrentMetricsValue := upd r.hpaCurrentMetricsValue (b, vl.2) (some vl.1) }
  else if metric.type = "External" then
    let vl := parseCommonMetrics (parseExternalStatus metric.external)
    { r with hpaCurrentMetricsValue := upd r.hpaCurrentMetricsValue (b, vl.2) (some vl.1) }
  else
    r

/-- One iteration of the `a.Status.Conditions` loop of `part_004`'s main:
for the three known condition types set the forward label set to 1 and the
reverse label set to 0 (no cache, no deletes in this variant). -/
def processCondition (b : BaseLabels) (r : RegState) (cond : HpaCondition) : RegState :=
  let fr := makeAnnotCondLabels cond
  if cond.type = "AbleToScale" then
    let m := upd (upd r.hpaAbleToScale (b, fr.1) (some 1)) (b, fr.2) (some 0)
    { r with hpaAbleToScale := m }
  else if cond.type = "ScalingActive" then
    let m := upd (upd r.hpaScalingActive (b, fr.1) (some 1)) (b, fr.2) (some 0)
    { r with hpaScalingActive := m }
  else if cond.type = "ScalingLimited" then
    let m := upd (upd r.hpaScalingLimited (b, fr.1) (some 1)) (b, fr.2) (some 0)
    { r with hpaScalingLimited := m }
  else
    r

/-- The per-autoscaler body of `part_004`'s metrics goroutine: publish the
base series (min pods and last-scale only when present), then the spec
metrics, the status metrics and the conditions. -/
def processHpa (r : RegState) (a : Hpa) : RegState :=
  let b := baseLabelOf a
  let r1 := { r with hpaCurrentPodsNum := upd r.hpaCurrentPodsNum b (some (a.currentReplicas : ℚ)) }
  let r2 := { r1 with hpaDesiredPodsNum := upd r1.hpaDesiredPodsNum b (some (a.desiredReplicas : ℚ)) }
  let r3 :=
    match a.minReplicas with
    | some m => { r2 with hpaMinPodsNum := upd r2.hpaMinPodsNum b (some (m : ℚ)) }
    | none => r2
  let r4 := { r3 with hpaMaxPodsNum := upd r3.hpaMaxPodsNum b (some (a.maxReplicas : ℚ)) }
  let r5 :=
    match a.lastScaleTimeUnix with
    | some t => { r4 with hpaLastScaleSecond := upd r4.hpaLastScaleSecond b (some (t : ℚ)) }
    | none => r4
  let r6 := a.specMetrics.foldl (processSpecMetric b) r5
  let r7 := a.currentMetrics.foldl (processStatusMetric b) r6
  a.conditions.foldl (processCondition b) r7

/-- One iteration of `part_004`'s metrics goroutine acting on the
registry: on a fetch error the registry is left untouched (`continue`);
on success the whole registry is reset and repopulated from the fetched
list. -/
def metricsTick (fetch : Except String (List Hpa)) (st : RegState) : RegState :=
  match fetch with
  | .error _ => st
  | .ok hpa => hpa.foldl processHpa resetAllMetric

end HpaExporter.V4

namespace HpaExporter.V3

open HpaExporter

/-- The `condition` struct of `part_003` (annotation payload): type,
status, reason, message. `lastTransitionTime` is never read. -/
structure Condition where
  type : String
  status : String
  reason : String
  message : String
deriving DecidableEq, Repr

/-- Go constant `conditionStatusTrue` from `part_003`. -/
def conditionStatusTrue : String := "True"

/-- Go constant `conditionStatusFalse` from `part_003`. -/
def conditionStatusFalse : String := "False"

/-- Model of `makeAnnotationCondLabels` from `part_003`. -/
def makeAnnotCondLabels (cond : Condition) : CondLabels × CondLabels :=
  let labelForward : CondLabels :=
    { cond_status := cond.status
      cond_reason := cond.reason
      cond_message := cond.message }
  let statusReverse : String :=
    if cond.status = conditionStatusTrue then conditionStatusFalse else conditionStatusTrue
  let labelReverse : CondLabels :=
    { cond_status := statusReverse
      cond_reason := ""
      cond_message := "" }
  (labelForward, labelReverse)

/-- The `resource` sub-object of the `currentMetrics` annotation struct. -/
structure CurrentMetricsResource where
  name : String
  currentAverageUtilization : Int
  currentAverageValue : String
deriving DecidableEq, Repr

/-- The `currentMetrics` struct of `part_003` (annotation payload). -/
structure CurrentMetrics where
  type : String
  resource : CurrentMetricsResource
deriving DecidableEq, Repr

/-- Model of Go `strings.Trim(s, "m")`: remove the leading and trailing
runs of the character m. -/
def trimM (s : String) : String :=
  String.mk (((s.toList.dropWhile (fun c => c == 'm')).reverse.dropWhile
    (fun c => c == 'm')).reverse)

/-- Model of Go `strconv.ParseInt(s, 10, 64)` restricted to its success
set: an optional sign followed by at least one decimal digit, within the
int64 range; `none` models a returned error (including range errors, on
which the caller falls back to 0). -/
def goParseInt (s : String) : Option Int :=
  match s.toList with
  | [] => none
  | c :: rest =>
    let signDigits : Int × List Char :=
      if c == '+' then (1, rest)
      else if c == '-' then (-1, rest)
      else (1, c :: rest)
    match signDigits with
    | (sign, digits) =>
      if digits = [] then none
      else if digits.all Char.isDigit then
        let n : Nat := digits.foldl (fun acc d => acc * 10 + (d.toNat - 48)) 0
        if sign = 1 then
          if n ≤ 9223372036854775807 then some (n : Int) else none
        else
          if n ≤ 9223372036854775808 then some (-(n : Int)) else none
      else none

/-- Model of `currentAverageCpuValue` from `part_003`: trim m, parse as a
decimal integer, and fall back to 0 on a parse error. -/
def currentAverageCpuValue (metrics : CurrentMetrics) : Int :=
  match goParseInt (trimM metrics.resource.currentAverageValue) with
  | some i => i
  | none => 0

/-- `as_v1.HorizontalPodAutoscaler` restricted to the fields `part_003`
reads.  The two annotation payloads are carried as `json.Unmarshal`
outcomes: `none` models a malformed payload. -/
structure Hpa where
  name : String
  hpaNamespace : String
  refKind : String
  refName : String
  refApiVersion : String
  currentReplicas : Int
  desiredReplicas : Int
  minReplicas : Option Int
  maxReplicas : Int
  currentCPUUtilizationPercentage : Option Int
  targetCPUUtilizationPercentage : Option Int
  lastScaleTimeUnix : Option Int
  currentMetricsAnno : Option (List CurrentMetrics)
  conditionsAnno : Option (List Condition)
deriving DecidableEq, Repr

/-- The base label map of `part_003`'s per-autoscaler loop. -/
def baseLabelOf (a : Hpa) : BaseLabels :=
  { hpa_name := a.name
    hpa_namespace := a.hpaNamespace
    ref_kind := a.refKind
    ref_name := a.refName
    ref_apiversion := a.refApiVersion }

/-- The eleven gauge families registered by `part_003`. -/
structure RegState where
  hpaCurrentPodsNum : BaseLabels → Option ℚ
  hpaDesiredPodsNum : BaseLabels → Option ℚ
  hpaMinPodsNum : BaseLabels → Option ℚ
  hpaMaxPodsNum : BaseLabels → Option ℚ
  hpaCurrentCpuValue : BaseLabels → Option ℚ
  hpaCurrentCpuPercentage : BaseLabels → Option ℚ
  hpaTargetCpuPercentage : BaseLabels → Option ℚ
  hpaLastScaleSecond : BaseLabels → Option ℚ
  hpaAbleToScale : BaseLabels × CondLabels → Option ℚ
  hpaScalingActive : BaseLabels × CondLabels → Option ℚ
  hpaScalingLimited : BaseLabels × CondLabels → Option ℚ

/-- The six condition-label caches of `part_003`'s metrics goroutine
(`annoLabelAbleToScale`, `annoLabelAbleToScaleRev`, ...), each a map from
autoscaler name to the most recently emitted label set. -/
structure CacheState where
  ableToScale : String → Option CondLabels
  ableToScaleRev : String → Option CondLabels
  scalingActive : String → Option CondLabels
  scalingActiveRev : String → Option CondLabels
  scalingLimited : String → Option CondLabels
  scalingLimitedRev : String → Option CondLabels

/-- State of `part_003`'s metrics goroutine: the registry plus the
condition-label caches. -/
structure TickState where
  reg : RegState
  cache : CacheState

/-- `GaugeVec.Delete(mergeLabels(label, old))` where `old` is the cached
label map: a cache miss yields the Go zero-value map, whose incomplete
label set matches no series, so the delete is a no-op. -/
def delCached (fam : BaseLabels × CondLabels → Option ℚ) (b : BaseLabels)
    (old : Option CondLabels) : BaseLabels × CondLabels → Option ℚ :=
  match old with
  | none => fam
  | some c => upd fam (b, c) none

/-- The shared shape of the three `case` bodies of `part_003`'s condition
loop: read the cached label sets, overwrite the cache with the freshly
computed pair, delete the two cached series, then set the new forward
series to 1 and the new reverse series to 0. -/
def relabelCondition (b : BaseLabels) (n : String) (cond : Condition)
    (cacheF cacheR : String → Option CondLabels)
    (fam : BaseLabels × CondLabels → Option ℚ) :
    (String → Option CondLabels) × (String → Option CondLabels) ×
      (BaseLabels × CondLabels → Option ℚ) :=
  let old := cacheF n
  let oldRev := cacheR n
  let fr := makeAnnotCondLabels cond
  let cacheF' := upd cacheF n (some fr.1)
  let cacheR' := upd cacheR n (some fr.2)
  let fam1 := delCached fam b old
  let fam2 := delCached fam1 b oldRev
  let fam3 := upd fam2 (b, fr.1) (some 1)
  let fam4 := upd fam3 (b, fr.2) (some 0)
  (cacheF', cacheR', fam4)

/-- One iteration of `part_003`'s condition loop: switch on the condition
type and relabel the corresponding family. -/
def applyCondition (b : BaseLabels) (n : String) (st : TickState)
    (cond : Condition) : TickState :=
  if cond.type = "AbleToScale" then
    let t := relabelCondition b n cond st.cache.ableToScale st.cache.ableToScaleRev
      st.reg.hpaAbleToScale
    { reg := { st.reg with hpaAbleToScale := t.2.2 }
      cache := { st.cache with ableToScale := t.1, ableToScaleRev := t.2.1 } }
  else if cond.type = "ScalingActive" then
    let t := relabelCondition b n cond st.cache.scalingActive st.cache.scalingActiveRev
      st.reg.hpaScalingActive
    { reg := { st.reg with hpaScalingActive := t.2.2 }
      cache := { st.cache with scalingActive := t.1, scalingActiveRev := t.2.1 } }
  else if cond.type = "ScalingLimited" then
    let t := relabelCondition b n cond st.cache.scalingLimited st.cache.scalingLimitedRev
      st.reg.hpaScalingLimited
    { reg := { st.reg with hpaScalingLimited := t.2.2 }
      cache := { st.cache with scalingLimited := t.1, scalingLimitedRev := t.2.1 } }
  else
    st

/-- The base-series publication of `part_003`'s per-autoscaler loop:
current/desired/max pods and the current cpu value unconditionally, min
pods, cpu percentages and last-scale time only when the optional source
field is present. -/
def publishBase (a : Hpa) (cpuVal : Int) (r : RegState) : RegState :=
  let b := baseLabelOf a
  let r1 := { r with hpaCurrentPodsNum := upd r.hpaCurrentPodsNum b (some (a.currentReplicas : ℚ)) }
  let r2 := { r1 with hpaDesiredPodsNum := upd r1.hpaDesiredPodsNum b (some (a.desiredReplicas : ℚ)) }
  let r3 :=
    match a.minReplicas with
    | some m => { r2 with hpaMinPodsNum := upd r2.hpaMinPodsNum b (some (m : ℚ)) }
    | none => r2
  let r4 := { r3 with hpaMaxPodsNum := upd r3.hpaMaxPodsNum b (some (a.maxReplicas : ℚ)) }
  let r5 := { r4 with hpaCurrentCpuValue := upd r4.hpaCurrentCpuValue b (some (cpuVal : ℚ)) }
  let r6 :=
    match a.currentCPUUtilizationPercentage with
    | some p => { r5 with hpaCurrentCpuPercentage := upd r5.hpaCurrentCpuPercentage b (some (p : ℚ)) }
    | none => r5
  let r7 :=
    match a.targetCPUUtilizationPercentage with
    | some p => { r6 with hpaTargetCpuPercentage := upd r6.hpaTargetCpuPercentage b (some (p : ℚ)) }
    | none => r6
  match a.lastScaleTimeUnix with
  | some t => { r7 with hpaLastScaleSecond := upd r7.hpaLastScaleSecond b (some (t : ℚ)) }
  | none => r7

/-- The per-autoscaler body of `part_003`'s metrics goroutine: a failed
`json.Unmarshal` of either annotation logs and skips the autoscaler
entirely; otherwise the base series are published and the conditions are
relabelled. -/
def processHpa (st : TickState) (a : Hpa) : TickState :=
  match a.currentMetricsAnno with
  | none => st
  | some metrics =>
    match a.conditionsAnno with
    | none => st
    | some conds =>
      let cpuVal : Int :=
        match metrics with
        | [] => 0
        | m :: _ => currentAverageCpuValue m
      let st1 : TickState := { st with reg := publishBase a cpuVal st.reg }
      conds.foldl (applyCondition (baseLabelOf a) a.name) st1

/-- One iteration of `part_003`'s metrics goroutine acting on the
registry and caches: on a fetch error both are left untouched
(`continue`); on success every fetched autoscaler is processed in
order. -/
def metricsTick (fetch : Except String (List Hpa)) (st : TickState) : TickState :=
  match fetch with
  | .error _ => st
  | .ok hpa => hpa.foldl processHpa st

end HpaExporter.V3

namespace HpaExporter.V1

open HpaExporter

/-- `as_v1.HorizontalPodAutoscaler` restricted to the fields `main.go`
reads. -/
structure Hpa where
  name : String
  hpaNamespace : String
  refKind : String
  refName : String
  refApiVersion : String
  currentReplicas : Int
  desiredReplicas : Int
  minReplicas : Option Int
  maxReplicas : Int
  currentCPUUtilizationPercentage : Option Int
  targetCPUUtilizationPercentage : Option Int
  lastScaleTimeUnix : Option Int
deriving DecidableEq, Repr

/-- The base label map of `main.go`'s per-autoscaler loop. -/
def baseLabelOf (a : Hpa) : BaseLabels :=
  { hpa_name := a.name
    hpa_namespace := a.hpaNamespace
    ref_kind := a.refKind
    ref_name := a.refName
    ref_apiversion := a.refApiVersion }

/-- The seven gauge families registered by `main.go`. -/
structure RegState where
  hpaCurrentPodsNum : BaseLabels → Option ℚ
  hpaDesiredPodsNum : BaseLabels → Option ℚ
  hpaMinPodsNum : BaseLabels → Option ℚ
  hpaMaxPodsNum : BaseLabels → Option ℚ
  hpaCurrentCpuPercentage : BaseLabels → Option ℚ
  hpaTargetCpuPercentage : BaseLabels → Option ℚ
  hpaLastScaleSecond : BaseLabels → Option ℚ

/-- The per-autoscaler body of `main.go`'s metrics goroutine.  If any of
min-replicas, current-CPU-utilization or target-CPU-utilization is nil the
autoscaler is skipped (`continue`) and the registry is untouched.
Otherwise the seven series are set; the last set reads
`a.Status.LastScaleTime.Unix()` with no nil guard, so a nil last-scale
time dereferences a nil pointer and the goroutine faults, modelled as
`none`. -/
def processHpa (r : RegState) (a : Hpa) : Option RegState :=
  match a.minReplicas, a.currentCPUUtilizationPercentage,
      a.targetCPUUtilizationPercentage with
  | some minR, some curCpu, some tgtCpu =>
    let b := baseLabelOf a
    let r1 := { r with hpaCurrentPodsNum := upd r.hpaCurrentPodsNum b (some (a.currentReplicas : ℚ)) }
    let r2 := { r1 with hpaDesiredPodsNum := upd r1.hpaDesiredPodsNum b (some (a.desiredReplicas : ℚ)) }
    let r3 := { r2 with hpaMinPodsNum := upd r2.hpaMinPodsNum b (some (minR : ℚ)) }
    let r4 := { r3 with hpaMaxPodsNum := upd r3.hpaMaxPodsNum b (some (a.maxReplicas : ℚ)) }
    let r5 := { r4 with hpaCurrentCpuPercentage := upd r4.hpaCurrentCpuPercentage b (some (curCpu : ℚ)) }
    let r6 := { r5 with hpaTargetCpuPercentage := upd r5.hpaTargetCpuPercentage b (some (tgtCpu : ℚ)) }
    match a.lastScaleTimeUnix with
    | some t => some { r6 with hpaLastScaleSecond := upd r6.hpaLastScaleSecond b (some (t : ℚ)) }
    | none => none
  | _, _, _ => some r

/-- The empty v1 registry (process start). -/
def emptyReg : RegState :=
  { hpaCurrentPodsNum := fun _ => none
    hpaDesiredPodsNum := fun _ => none
    hpaMinPodsNum := fun _ => none
    hpaMaxPodsNum := fun _ => none
    hpaCurrentCpuPercentage := fun _ => none
    hpaTargetCpuPercentage := fun _ => none
    hpaLastScaleSecond := fun _ => none }

end HpaExporter.V1

namespace HpaExporter

/-- The object `kubeClient...List(...)` returns: a pointer to a list
object whose `Items` field holds the autoscalers.  `none` models a nil
pointer result. -/
structure HpaListObject (η : Type) where
  items : List η

/-- Model of `getHpaList` (`main.go`, `part_002`, `part_003`, `part_004`):
`out, err := ...List(...); return out.Items, err`.  The `Items` field of
`out` is read unconditionally, before `err` is inspected; a nil `out`
therefore faults (modelled `none`) even when an error is available to
return. -/
def getHpaList (res : Option (HpaListObject V1.Hpa) × Option String) :
    Option (List V1.Hpa × Option String) :=
  match res.1 with
  | some out => some (out.items, res.2)
  | none => none

/-- Model of `getHpaListV2` (`part_004`), identical shape over the
v2beta1 item type. -/
def getHpaListV2 (res : Option (HpaListObject V4.Hpa) × Option String) :
    Option (List V4.Hpa × Option String) :=
  match res.1 with
  | some out => some (out.items, res.2)
  | none => none

/-- Observable actions of one iteration of the metrics goroutine's
infinite `for` loop, shared shape across all four variants. -/
inductive TickAction where
  | logErr : TickAction
  | work : TickAction
  | sleep : TickAction
deriving DecidableEq, Repr

/-- Control flow of one iteration of the metrics goroutine: on a fetch
error the iteration logs and executes `continue`, which jumps back to the
top of the `for` loop and skips the `time.Sleep` at the bottom of the
body; on success the publishing work runs and then the sleep. -/
def metricsLoopIteration (fetch : Except String (List V4.Hpa)) : List TickAction :=
  match fetch with
  | .error _ => [TickAction.logErr]
  | .ok _ => [TickAction.work, TickAction.sleep]

/-- Action trace of finitely many consecutive loop iterations, given the
fetch outcome of each iteration in order. -/
def metricsLoopTrace (fetches : List (Except String (List V4.Hpa))) : List TickAction :=
  fetches.flatMap metricsLoopIteration

end HpaExporter

namespace HpaExporter

/-- Claim C2: for every observed condition, the inactive (reverse) label
set has cond_status "False" exactly when the observed status is "True"
and "True" for every other observed status value (including "False" and
"Unknown"), with cond_reason and cond_message both empty — in both the
`part_003` and the `part_004` versions of the label constructor. -/
theorem C2_status_negation :
    (∀ cond : V3.Condition,
      (V3.makeAnnotCondLabels cond).2 =
        ({ cond_status := if cond.status = "True" then "False" else "True"
           cond_reason := ""
           cond_message := "" } : CondLabels)) ∧
    (∀ cond : V4.HpaCondition,
      (V4.makeAnnotCondLabels cond).2 =
        ({ cond_status := if cond.status = "True" then "False" else "True"
           cond_reason := ""
           cond_message := "" } : CondLabels)) := by
  constructor <;> intro cond <;>
    simp [V3.makeAnnotCondLabels, V4.makeAnnotCondLabels,
      V3.conditionStatusTrue, V3.conditionStatusFalse,
      V4.conditionTrue, V4.conditionFalse]

/-- Claim C3 (evaluation at the failing input): on a fetch error the
iteration's `continue` jumps over the `time.Sleep` at the bottom of the
loop body, so the trace of a failed iteration contains no sleep action and
the next fetch is retried immediately; the claim expects a sleep before
the retry. -/
theorem C3_error_tick_skips_sleep :
    metricsLoopIteration (Except.error "connection refused") = [TickAction.logErr] ∧
    TickAction.sleep ∉ metricsLoopIteration (Except.error "connection refused") ∧
    metricsLoopTrace [Except.error "connection refused", Except.ok []] =
      [TickAction.logErr, TickAction.work, TickAction.sleep] := by
  refine ⟨rfl, ?_, rfl⟩
  simp [metricsLoopIteration]

/-- Claim C4: a tick whose fetch returns an error leaves the registry (and
in `part_003` also the caches) exactly as they were, in both the
reset-based variant (`part_004`) and the cache-based variant (`part_003`);
in the reset-based variant the full reset happens only on the successful
branch. -/
theorem C4_fetch_error_atomicity :
    (∀ (e : String) (st : V4.RegState), V4.metricsTick (Except.error e) st = st) ∧
    (∀ (e : String) (st : V3.TickState), V3.metricsTick (Except.error e) st = st) ∧
    (∀ (l : List V4.Hpa) (st : V4.RegState),
      V4.metricsTick (Except.ok l) st = l.foldl V4.processHpa V4.resetAllMetric) :=
  ⟨fun _ _ => rfl, fun _ _ => rfl, fun _ _ => rfl⟩

/-- Claim C6: a Resource-kind descriptor with utilization present emits
the utilization promoted to a numeric value with metric-name label "-"
(80 yields 80); an Object-kind descriptor emits the milli-quantity divided
by 1000 (2500 yields 2.5). -/
theorem C6_metric_kind_conversion :
    (∀ (nm : String) (u avg : Int),
      (V4.parseCommonMetrics (V4.parseResourceSpec
          { name := nm, targetAverageUtilization := some u,
            targetAverageValueMilli := avg })).1 = (u : ℚ) ∧
      (V4.parseCommonMetrics (V4.parseResourceSpec
          { name := nm, targetAverageUtilization := some u,
            targetAverageValueMilli := avg })).2.metric_metricname = "-") ∧
    (∀ m : V4.ObjectMetricSource,
      (V4.parseCommonMetrics (V4.parseObjectSpec m)).1 = (m.targetValueMilli : ℚ) / 1000) ∧
    (V4.parseCommonMetrics (V4.parseResourceSpec
        { name := "cpu", targetAverageUtilization := some 80,
          targetAverageValueMilli := 0 })).1 = 80 ∧
    (V4.parseCommonMetrics (V4.parseObjectSpec
        { targetKind := "Service", targetName := "svc", metricName := "qps",
          targetValueMilli := 2500 })).1 = 5 / 2 := by
  refine ⟨fun nm u avg => ⟨rfl, rfl⟩, fun m => rfl, by norm_num [V4.parseCommonMetrics, V4.parseResourceSpec], by norm_num [V4.parseCommonMetrics, V4.parseObjectSpec]⟩

/-- Claim C10: `getHpaList`/`getHpaListV2` read the `Items` field of the
value returned by the client's List call before inspecting the error: a
non-nil list object is returned together with whatever error value is
present, while a nil list object faults even when an error was available
to return — there is no nil guard between the call and the field
access. -/
theorem C10_getHpaList_reads_items_first :
    (∀ (out : HpaListObject V1.Hpa) (err : Option String),
      getHpaList (some out, err) = some (out.items, err)) ∧
    (∀ err : Option String, getHpaList (none, err) = none) ∧
    (∀ (out : HpaListObject V4.Hpa) (err : Option String),
      getHpaListV2 (some out, err) = some (out.items, err)) ∧
    (∀ err : Option String, getHpaListV2 (none, err) = none) :=
  ⟨fun _ _ => rfl, fun _ => rfl, fun _ _ => rfl, fun _ => rfl⟩

theorem processSpecMetric_unknown (b : BaseLabels) (r : V4.RegState)
    (m : V4.MetricSpec) (hm : m.type ∉ ["Object", "Pods", "Resource", "External"]) :
    V4.processSpecMetric b r m = r := by
  simp only [List.mem_cons, List.mem_singleton, List.not_mem_nil, or_false] at hm
  push_neg at hm
  simp [V4.processSpecMetric, hm.1, hm.2.1, hm.2.2.1, hm.2.2.2]

theorem processStatusMetric_unknown (b : BaseLabels) (r : V4.RegState)
    (m : V4.MetricStatus) (hm : m.type ∉ ["Object", "Pods", "Resource", "External"]) :
    V4.processStatusMetric b r m = r := by
  simp only [List.mem_cons, List.mem_singleton, List.not_mem_nil, or_false] at hm
  push_neg at hm
  simp [V4.processStatusMetric, hm.1, hm.2.1, hm.2.2.1, hm.2.2.2]

/-- Claim C8: a metric descriptor whose type is none of Object, Pods,
Resource, External contributes nothing to the fold over the spec's
target-metrics list or the status's current-metrics list: the fold with
the unknown descriptor spliced in equals the fold without it, so the
remaining descriptors are processed unaffected and no error is raised. -/
theorem C8_unknown_metric_kinds_dropped
    (b : BaseLabels) (r : V4.RegState)
    (xs ys : List V4.MetricSpec) (m : V4.MetricSpec)
    (sxs sys : List V4.MetricStatus) (sm : V4.MetricStatus)
    (hm : m.type ∉ ["Object", "Pods", "Resource", "External"])
    (hsm : sm.type ∉ ["Object", "Pods", "Resource", "External"]) :
    (xs ++ m :: ys).foldl (V4.processSpecMetric b) r =
      (xs ++ ys).foldl (V4.processSpecMetric b) r ∧
    (sxs ++ sm :: sys).foldl (V4.processStatusMetric b) r =
      (sxs ++ sys).foldl (V4.processStatusMetric b) r := by
  constructor
  · simp [List.foldl_append, processSpecMetric_unknown b _ m hm]
  · simp [List.foldl_append, processStatusMetric_unknown b _ sm hsm]

/-- A concrete metric descriptor of an unrecognized kind
(ContainerResource, introduced after v2beta1). -/
def specC8 : V4.MetricSpec :=
  { type := "ContainerResource"
    object := { targetKind := "", targetName := "", metricName := "", targetValueMilli := 0 }
    pods := { metricName := "", targetAverageValueMilli := 0 }
    resource := { name := "", targetAverageUtilization := none, targetAverageValueMilli := 0 }
    external := { metricName := "", targetAverageValueMilli := none, targetValueMilli := 0 } }

/-- A concrete status descriptor of an unrecognized kind. -/
def statusC8 : V4.MetricStatus :=
  { type := "ContainerResource"
    object := { targetKind := "", targetName := "", metricName := "", currentValueMilli := 0 }
    pods := { metricName := "", currentAverageValueMilli := 0 }
    resource := { name := "", currentAverageUtilization := none, currentAverageValueMilli := 0 }
    external := { metricName := "", currentAverageValueMilli := none, currentValueMilli := 0 } }

/-- A concrete known-kind spec descriptor used as a surrounding list
element in the C8 witness. -/
def specC8known : V4.MetricSpec :=
  { specC8 with type := "Resource" }

/-- A concrete base label set used in witnesses. -/
def baseC8 : BaseLabels :=
  { hpa_name := "web"
    hpa_namespace := "default"
    ref_kind := "Deployment"
    ref_name := "web"
    ref_apiversion := "apps/v1" }

/-- Witness for C8 at a concrete input: the hypotheses hold for the
ContainerResource descriptors and the splice equation follows. -/
theorem C8_unknown_metric_kinds_dropped_witness :
    specC8.type ∉ ["Object", "Pods", "Resource", "External"] ∧
    statusC8.type ∉ ["Object", "Pods", "Resource", "External"] ∧
    ([specC8known] ++ specC8 :: []).foldl (V4.processSpecMetric baseC8) V4.resetAllMetric =
      ([specC8known] ++ []).foldl (V4.processSpecMetric baseC8) V4.resetAllMetric := by
  refine ⟨by decide, by decide, ?_⟩
  exact (C8_unknown_metric_kinds_dropped baseC8 V4.resetAllMetric [specC8known] [] specC8
    [] [] statusC8 (by decide) (by decide)).1

end HpaExporter

namespace HpaExporter.V3

theorem makeAnnotCondLabels_status_ne (cond : Condition) :
    (makeAnnotCondLabels cond).1.cond_status ≠ (makeAnnotCondLabels cond).2.cond_status := by
  by_cases h : cond.status = "True" <;>
    simp [makeAnnotCondLabels, conditionStatusTrue, conditionStatusFalse, h]

theorem makeAnnotCondLabels_fst_ne_snd (cond : Condition) :
    (makeAnnotCondLabels cond).1 ≠ (makeAnnotCondLabels cond).2 := by
  intro h
  exact makeAnnotCondLabels_status_ne cond (congrArg CondLabels.cond_status h)

theorem delCached_of_none (m : BaseLabels × CondLabels → Option ℚ) (b : BaseLabels)
    (o : Option CondLabels) (c : CondLabels) (h : m (b, c) = none) :
    delCached m b o (b, c) = none := by
  cases o with
  | none => exact h
  | some c' =>
    by_cases hc : (b, c) = ((b, c') : BaseLabels × CondLabels)
    · simp [delCached, hc, upd_self]
    · simpa [delCached, upd_ne _ _ _ _ hc] using h

theorem delCached_ne_base (m : BaseLabels × CondLabels → Option ℚ) (b : BaseLabels)
    (o : Option CondLabels) (k : BaseLabels × CondLabels) (h : k.1 ≠ b) :
    delCached m b o k = m k := by
  cases o with
  | none => rfl
  | some c' =>
    have hk : k ≠ ((b, c') : BaseLabels × CondLabels) := by
      intro he
      exact h (by rw [he])
    simp [delCached, upd_ne _ _ _ _ hk]

theorem delCached_cached (m : BaseLabels × CondLabels → Option ℚ) (b : BaseLabels)
    (c : CondLabels) : delCached m b (some c) (b, c) = none := by
  simp [delCached, upd_self]

end HpaExporter.V3

namespace HpaExporter

/-- Claim C1: processing one observed condition in `part_003`'s
cache-based relabeling step, under the consistency precondition that the
registry's series for this autoscaler's base label set are exactly the
cached ones and given that the cached active labels differ from the newly
observed labels, yields a registry that contains exactly one active series
(the new forward label set, value 1) and one inactive series (the new
reverse label set, value 0) for this (autoscaler, condition-type) pair —
every other condition label combination, in particular the old
reason/message one, is absent — while series of other autoscalers are
untouched, and the caches record the new pair. -/
theorem C1_delete_before_set
    (b : BaseLabels) (n : String) (cond : V3.Condition)
    (cacheF cacheR : String → Option CondLabels)
    (fam : BaseLabels × CondLabels → Option ℚ)
    (hconsist : ∀ c : CondLabels, fam (b, c) ≠ none →
      cacheF n = some c ∨ cacheR n = some c)
    (hchanged : cacheF n ≠ some (V3.makeAnnotCondLabels cond).1) :
    (∀ c : CondLabels,
      (V3.relabelCondition b n cond cacheF cacheR fam).2.2 (b, c) =
        if c = (V3.makeAnnotCondLabels cond).1 then some 1
        else if c = (V3.makeAnnotCondLabels cond).2 then some 0
        else none) ∧
    (∀ k : BaseLabels × CondLabels, k.1 ≠ b →
      (V3.relabelCondition b n cond cacheF cacheR fam).2.2 k = fam k) ∧
    (V3.relabelCondition b n cond cacheF cacheR fam).1 n =
      some (V3.makeAnnotCondLabels cond).1 ∧
    (V3.relabelCondition b n cond cacheF cacheR fam).2.1 n =
      some (V3.makeAnnotCondLabels cond).2 := by
  have hne := V3.makeAnnotCondLabels_fst_ne_snd cond
  refine ⟨?_, ?_, ?_, ?_⟩
  · intro c
    by_cases hc2 : c = (V3.makeAnnotCondLabels cond).2
    · subst hc2
      rw [if_neg (Ne.symm hne), if_pos rfl]
      simp [V3.relabelCondition, upd_self]
    · have hk2 : ((b, c) : BaseLabels × CondLabels) ≠ (b, (V3.makeAnnotCondLabels cond).2) := by
        simp [Prod.ext_iff, hc2]
      by_cases hc1 : c = (V3.makeAnnotCondLabels cond).1
      · subst hc1
        rw [if_pos rfl]
        simp [V3.relabelCondition, upd_ne _ _ _ _ hk2, upd_self]
      · have hk1 : ((b, c) : BaseLabels × CondLabels) ≠ (b, (V3.makeAnnotCondLabels cond).1) := by
          simp [Prod.ext_iff, hc1]
        rw [if_neg hc1, if_neg hc2]
        simp only [V3.relabelCondition, upd_ne _ _ _ _ hk2, upd_ne _ _ _ _ hk1]
        by_cases h0 : fam (b, c) = none
        · exact V3.delCached_of_none _ _ _ _ (V3.delCached_of_none _ _ _ _ h0)
        · rcases hconsist c h0 with h | h
          · exact V3.delCached_of_none _ _ _ _ (by rw [h]; exact V3.delCached_cached _ _ _)
          · rw [h]
            exact V3.delCached_cached _ _ _
  · intro k hk
    have hk1 : k ≠ ((b, (V3.makeAnnotCondLabels cond).1) : BaseLabels × CondLabels) := by
      intro he; exact hk (by rw [he])
    have hk2 : k ≠ ((b, (V3.makeAnnotCondLabels cond).2) : BaseLabels × CondLabels) := by
      intro he; exact hk (by rw [he])
    simp only [V3.relabelCondition, upd_ne _ _ _ _ hk2, upd_ne _ _ _ _ hk1]
    rw [V3.delCached_ne_base _ _ _ _ hk, V3.delCached_ne_base _ _ _ _ hk]
  · simp [V3.relabelCondition, upd_self]
  · simp [V3.relabelCondition, upd_self]

/-- The old active condition labels cached from the previous tick in the
C1 witness scenario. -/
def labelsR1 : CondLabels :=
  { cond_status := "True", cond_reason := "R1", cond_message := "m1" }

/-- The old inactive condition labels cached from the previous tick in
the C1 witness scenario. -/
def labelsRev : CondLabels :=
  { cond_status := "False", cond_reason := "", cond_message := "" }

/-- The newly observed condition in the C1 witness scenario: same status,
new reason/message. -/
def condC1 : V3.Condition :=
  { type := "AbleToScale", status := "True", reason := "R2", message := "m2" }

/-- The C1 witness cache of active label sets. -/
def cacheFC1 : String → Option CondLabels :=
  fun x => if x = "web" then some labelsR1 else none

/-- The C1 witness cache of inactive label sets. -/
def cacheRC1 : String → Option CondLabels :=
  fun x => if x = "web" then some labelsRev else none

/-- The C1 witness registry family: exactly the two cached series. -/
def famC1 : BaseLabels × CondLabels → Option ℚ :=
  fun k => if k = (baseC8, labelsR1) then some 1
    else if k = (baseC8, labelsRev) then some 0 else none

/-- Witness for C1 at a concrete input: a condition whose reason changes
from R1 to R2 while the status stays True; after the relabeling step the
old reason-R1 series is gone and exactly the new active/inactive pair is
present. -/
theorem C1_delete_before_set_witness :
    cacheFC1 "web" ≠ some (V3.makeAnnotCondLabels condC1).1 ∧
    (V3.relabelCondition baseC8 "web" condC1 cacheFC1 cacheRC1 famC1).2.2
      (baseC8, labelsR1) = none ∧
    (V3.relabelCondition baseC8 "web" condC1 cacheFC1 cacheRC1 famC1).2.2
      (baseC8, (V3.makeAnnotCondLabels condC1).1) = some 1 ∧
    (V3.relabelCondition baseC8 "web" condC1 cacheFC1 cacheRC1 famC1).2.2
      (baseC8, (V3.makeAnnotCondLabels condC1).2) = some 0 := by
  have hconsist : ∀ c : CondLabels, famC1 (baseC8, c) ≠ none →
      cacheFC1 "web" = some c ∨ cacheRC1 "web" = some c := by
    intro c hc
    by_cases h1 : c = labelsR1
    · left
      simp [cacheFC1, h1]
    · by_cases h2 : c = labelsRev
      · right
        simp [cacheRC1, h2]
      · exfalso
        exact hc (by simp [famC1, Prod.ext_iff, h1, h2])
  have hchanged : cacheFC1 "web" ≠ some (V3.makeAnnotCondLabels condC1).1 := by decide
  have hmain := C1_delete_before_set baseC8 "web" condC1 cacheFC1 cacheRC1 famC1
    hconsist hchanged
  refine ⟨hchanged, ?_, ?_, ?_⟩
  · rw [hmain.1 labelsR1]
    decide
  · rw [hmain.1 (V3.makeAnnotCondLabels condC1).1, if_pos rfl]
  · rw [hmain.1 (V3.makeAnnotCondLabels condC1).2,
      if_neg (Ne.symm (V3.makeAnnotCondLabels_fst_ne_snd condC1)), if_pos rfl]

end HpaExporter

namespace HpaExporter

/-- Claim C9: in the annotation-based variant, an autoscaler whose
current-metrics or conditions annotation fails to parse contributes
nothing to the tick — its processing step is the identity on registry and
caches — and the tick over a snapshot containing it equals the tick over
the snapshot without it, so every other autoscaler is processed
unaffected. -/
theorem C9_malformed_skips_entity
    (a : V3.Hpa) (xs ys : List V3.Hpa) (st : V3.TickState)
    (h : a.currentMetricsAnno = none ∨ a.conditionsAnno = none) :
    V3.processHpa st a = st ∧
    V3.metricsTick (Except.ok (xs ++ a :: ys)) st =
      V3.metricsTick (Except.ok (xs ++ ys)) st := by
  have hskip : ∀ s : V3.TickState, V3.processHpa s a = s := by
    intro s
    rcases h with h | h
    · simp [V3.processHpa, h]
    · cases hm : a.currentMetricsAnno with
      | none => simp [V3.processHpa, hm]
      | some metrics => simp [V3.processHpa, hm, h]
  refine ⟨hskip st, ?_⟩
  simp [V3.metricsTick, List.foldl_append, hskip]

/-- An empty `part_003` registry (process start). -/
def emptyReg3 : V3.RegState :=
  { hpaCurrentPodsNum := fun _ => none
    hpaDesiredPodsNum := fun _ => none
    hpaMinPodsNum := fun _ => none
    hpaMaxPodsNum := fun _ => none
    hpaCurrentCpuValue := fun _ => none
    hpaCurrentCpuPercentage := fun _ => none
    hpaTargetCpuPercentage := fun _ => none
    hpaLastScaleSecond := fun _ => none
    hpaAbleToScale := fun _ => none
    hpaScalingActive := fun _ => none
    hpaScalingLimited := fun _ => none }

/-- Empty `part_003` caches (goroutine start). -/
def emptyCache3 : V3.CacheState :=
  { ableToScale := fun _ => none
    ableToScaleRev := fun _ => none
    scalingActive := fun _ => none
    scalingActiveRev := fun _ => none
    scalingLimited := fun _ => none
    scalingLimitedRev := fun _ => none }

/-- Initial `part_003` goroutine state. -/
def emptyState3 : V3.TickState :=
  { reg := emptyReg3, cache := emptyCache3 }

/-- An autoscaler whose current-metrics annotation payload is malformed
(its `json.Unmarshal` fails). -/
def hpaC9bad : V3.Hpa :=
  { name := "bad", hpaNamespace := "default", refKind := "Deployment"
    refName := "bad", refApiVersion := "apps/v1"
    currentReplicas := 1, desiredReplicas := 1, minReplicas := some 1
    maxReplicas := 3, currentCPUUtilizationPercentage := some 10
    targetCPUUtilizationPercentage := some 50, lastScaleTimeUnix := some 1600000000
    currentMetricsAnno := none
    conditionsAnno := some [] }

/-- The condition carried by the well-formed sibling autoscaler in the C9
witness. -/
def condC9 : V3.Condition :=
  { type := "AbleToScale", status := "True", reason := "ReadyForNewScale", message := "" }

/-- A well-formed sibling autoscaler processed in the same tick. -/
def hpaC9good : V3.Hpa :=
  { name := "web", hpaNamespace := "default", refKind := "Deployment"
    refName := "web", refApiVersion := "apps/v1"
    currentReplicas := 3, desiredReplicas := 5, minReplicas := some 2
    maxReplicas := 10, currentCPUUtilizationPercentage := some 50
    targetCPUUtilizationPercentage := some 80, lastScaleTimeUnix := some 1600000000
    currentMetricsAnno := some []
    conditionsAnno := some [condC9] }

/-- Witness for C9 at a concrete input: the malformed autoscaler is
skipped and the tick over [good, bad] equals the tick over [good]. -/
theorem C9_malformed_skips_entity_witness :
    V3.processHpa emptyState3 hpaC9bad = emptyState3 ∧
    V3.metricsTick (Except.ok ([hpaC9good] ++ hpaC9bad :: [])) emptyState3 =
      V3.metricsTick (Except.ok ([hpaC9good] ++ [])) emptyState3 :=
  C9_malformed_skips_entity hpaC9bad [hpaC9good] [] emptyState3 (Or.inl rfl)

end HpaExporter

namespace HpaExporter

theorem foldl_preserves {σ μ ρ : Type} (step : σ → μ → σ) (f : σ → ρ)
    (h : ∀ (s : σ) (m : μ), f (step s m) = f s) :
    ∀ (l : List μ) (s : σ), f (l.foldl step s) = f s := by
  intro l
  induction l with
  | nil => intro s; rfl
  | cons m t ih =>
    intro s
    rw [List.foldl_cons, ih, h]

theorem processSpecMetric_keeps_current (b : BaseLabels) :
    ∀ (s : V4.RegState) (m : V4.MetricSpec),
      (V4.processSpecMetric b s m).hpaCurrentPodsNum = s.hpaCurrentPodsNum := by
  intro s m
  unfold V4.processSpecMetric
  split_ifs <;> rfl

theorem processSpecMetric_keeps_min (b : BaseLabels) :
    ∀ (s : V4.RegState) (m : V4.MetricSpec),
      (V4.processSpecMetric b s m).hpaMinPodsNum = s.hpaMinPodsNum := by
  intro s m
  unfold V4.processSpecMetric
  split_ifs <;> rfl

theorem processSpecMetric_keeps_lastScale (b : BaseLabels) :
    ∀ (s : V4.RegState) (m : V4.MetricSpec),
      (V4.processSpecMetric b s m).hpaLastScaleSecond = s.hpaLastScaleSecond := by
  intro s m
  unfold V4.processSpecMetric
  split_ifs <;> rfl

theorem processStatusMetric_keeps_current (b : BaseLabels) :
    ∀ (s : V4.RegState) (m : V4.MetricStatus),
      (V4.processStatusMetric b s m).hpaCurrentPodsNum = s.hpaCurrentPodsNum := by
  intro s m
  unfold V4.processStatusMetric
  split_ifs <;> rfl

theorem processStatusMetric_keeps_min (b : BaseLabels) :
    ∀ (s : V4.RegState) (m : V4.MetricStatus),
      (V4.processStatusMetric b s m).hpaMinPodsNum = s.hpaMinPodsNum := by
  intro s m
  unfold V4.processStatusMetric
  split_ifs <;> rfl

theorem processStatusMetric_keeps_lastScale (b : BaseLabels) :
    ∀ (s : V4.RegState) (m : V4.MetricStatus),
      (V4.processStatusMetric b s m).hpaLastScaleSecond = s.hpaLastScaleSecond := by
  intro s m
  unfold V4.processStatusMetric
  split_ifs <;> rfl

theorem processCondition_keeps_current (b : BaseLabels) :
    ∀ (s : V4.RegState) (c : V4.HpaCondition),
      (V4.processCondition b s c).hpaCurrentPodsNum = s.hpaCurrentPodsNum := by
  intro s c
  unfold V4.processCondition
  split_ifs <;> rfl

theorem processCondition_keeps_min (b : BaseLabels) :
    ∀ (s : V4.RegState) (c : V4.HpaCondition),
      (V4.processCondition b s c).hpaMinPodsNum = s.hpaMinPodsNum := by
  intro s c
  unfold V4.processCondition
  split_ifs <;> rfl

theorem processCondition_keeps_lastScale (b : BaseLabels) :
    ∀ (s : V4.RegState) (c : V4.HpaCondition),
      (V4.processCondition b s c).hpaLastScaleSecond = s.hpaLastScaleSecond := by
  intro s c
  unfold V4.processCondition
  split_ifs <;> rfl

theorem processHpaV4_current (r : V4.RegState) (a : V4.Hpa) :
    (V4.processHpa r a).hpaCurrentPodsNum (V4.baseLabelOf a) =
      some (a.currentReplicas : ℚ) := by
  unfold V4.processHpa
  rw [foldl_preserves _ _ (processCondition_keeps_current (V4.baseLabelOf a)),
    foldl_preserves _ _ (processStatusMetric_keeps_current (V4.baseLabelOf a)),
    foldl_preserves _ _ (processSpecMetric_keeps_current (V4.baseLabelOf a))]
  cases a.minReplicas <;> cases a.lastScaleTimeUnix <;>
    simp [upd_self, upd_ne]

theorem processHpaV4_min (r : V4.RegState) (a : V4.Hpa) :
    (V4.processHpa r a).hpaMinPodsNum (V4.baseLabelOf a) =
      (match a.minReplicas with
       | some m => some (m : ℚ)
       | none => r.hpaMinPodsNum (V4.baseLabelOf a)) := by
  unfold V4.processHpa
  rw [foldl_preserves _ _ (processCondition_keeps_min (V4.baseLabelOf a)),
    foldl_preserves _ _ (processStatusMetric_keeps_min (V4.baseLabelOf a)),
    foldl_preserves _ _ (processSpecMetric_keeps_min (V4.baseLabelOf a))]
  cases a.minReplicas <;> cases a.lastScaleTimeUnix <;>
    simp [upd_self, upd_ne]

theorem processHpaV4_lastScale (r : V4.RegState) (a : V4.Hpa) :
    (V4.processHpa r a).hpaLastScaleSecond (V4.baseLabelOf a) =
      (match a.lastScaleTimeUnix with
       | some t => some (t : ℚ)
       | none => r.hpaLastScaleSecond (V4.baseLabelOf a)) := by
  unfold V4.processHpa
  rw [foldl_preserves _ _ (processCondition_keeps_lastScale (V4.baseLabelOf a)),
    foldl_preserves _ _ (processStatusMetric_keeps_lastScale (V4.baseLabelOf a)),
    foldl_preserves _ _ (processSpecMetric_keeps_lastScale (V4.baseLabelOf a))]
  cases a.minReplicas <;> cases a.lastScaleTimeUnix <;>
    simp [upd_self, upd_ne]

theorem publishBase_projections (r : V3.RegState) (a : V3.Hpa) (cv : Int) :
    (V3.publishBase a cv r).hpaCurrentPodsNum (V3.baseLabelOf a) =
        some (a.currentReplicas : ℚ) ∧
    (V3.publishBase a cv r).hpaDesiredPodsNum (V3.baseLabelOf a) =
        some (a.desiredReplicas : ℚ) ∧
    (V3.publishBase a cv r).hpaMaxPodsNum (V3.baseLabelOf a) =
        some (a.maxReplicas : ℚ) ∧
    (V3.publishBase a cv r).hpaCurrentCpuValue (V3.baseLabelOf a) = some (cv : ℚ) ∧
    (V3.publishBase a cv r).hpaMinPodsNum (V3.baseLabelOf a) =
      (match a.minReplicas with
       | some m => some (m : ℚ)
       | none => r.hpaMinPodsNum (V3.baseLabelOf a)) ∧
    (V3.publishBase a cv r).hpaCurrentCpuPercentage (V3.baseLabelOf a) =
      (match a.currentCPUUtilizationPercentage with
       | some p => some (p : ℚ)
       | none => r.hpaCurrentCpuPercentage (V3.baseLabelOf a)) ∧
    (V3.publishBase a cv r).hpaTargetCpuPercentage (V3.baseLabelOf a) =
      (match a.targetCPUUtilizationPercentage with
       | some p => some (p : ℚ)
       | none => r.hpaTargetCpuPercentage (V3.baseLabelOf a)) ∧
    (V3.publishBase a cv r).hpaLastScaleSecond (V3.baseLabelOf a) =
      (match a.lastScaleTimeUnix with
       | some t => some (t : ℚ)
       | none => r.hpaLastScaleSecond (V3.baseLabelOf a)) := by
  cases hmin : a.minReplicas <;> cases hcur : a.currentCPUUtilizationPercentage <;>
    cases htgt : a.targetCPUUtilizationPercentage <;> cases hls : a.lastScaleTimeUnix <;>
      simp [V3.publishBase, hmin, hcur, htgt, hls, upd_self]

end HpaExporter

namespace HpaExporter

/-- The C7 failing input: an autoscaler whose three gating optional fields
are all present but which has never scaled, so `LastScaleTime` is nil. -/
def hpaC7 : V1.Hpa :=
  { name := "web", hpaNamespace := "default", refKind := "Deployment"
    refName := "web", refApiVersion := "apps/v1"
    currentReplicas := 3, desiredReplicas := 5, minReplicas := some 2
    maxReplicas := 10, currentCPUUtilizationPercentage := some 50
    targetCPUUtilizationPercentage := some 80, lastScaleTimeUnix := none }

/-- The same autoscaler with a last-scale timestamp present. -/
def hpaC7ok : V1.Hpa :=
  { hpaC7 with lastScaleTimeUnix := some 1600000000 }

/-- Claim C7 (evaluation at the failing input, plus the policy that does
hold): in the v1 variant an autoscaler with any of the three gating
optional fields absent publishes nothing, and with all three present the
seven base series are set to the exact snapshot values — but only when
`LastScaleTime` is also non-nil: at the failing input `hpaC7` (three
fields present, never scaled) the unguarded
`a.Status.LastScaleTime.Unix()` dereferences nil and the goroutine
faults.  In the v2-style variants only the series depending on an absent
optional field is suppressed and all other base series are published with
exact values. -/
theorem C7_optional_field_policy :
    V1.processHpa V1.emptyReg hpaC7 = none ∧
    (∀ (r : V1.RegState) (a : V1.Hpa),
      V1.processHpa r { a with minReplicas := none } = some r) ∧
    (∀ (r : V1.RegState) (a : V1.Hpa),
      V1.processHpa r { a with currentCPUUtilizationPercentage := none } = some r) ∧
    (∀ (r : V1.RegState) (a : V1.Hpa),
      V1.processHpa r { a with targetCPUUtilizationPercentage := none } = some r) ∧
    (V1.processHpa V1.emptyReg hpaC7ok).map
        (fun r => (r.hpaCurrentPodsNum (V1.baseLabelOf hpaC7ok),
          r.hpaDesiredPodsNum (V1.baseLabelOf hpaC7ok),
          r.hpaMinPodsNum (V1.baseLabelOf hpaC7ok),
          r.hpaMaxPodsNum (V1.baseLabelOf hpaC7ok))) =
      some (some 3, some 5, some 2, some 10) ∧
    (V1.processHpa V1.emptyReg hpaC7ok).map
        (fun r => (r.hpaCurrentCpuPercentage (V1.baseLabelOf hpaC7ok),
          r.hpaTargetCpuPercentage (V1.baseLabelOf hpaC7ok),
          r.hpaLastScaleSecond (V1.baseLabelOf hpaC7ok))) =
      some (some 50, some 80, some 1600000000) ∧
    (∀ (r : V4.RegState) (a : V4.Hpa),
      (V4.processHpa r a).hpaCurrentPodsNum (V4.baseLabelOf a) =
        some (a.currentReplicas : ℚ)) ∧
    (∀ (r : V4.RegState) (a : V4.Hpa),
      (V4.processHpa r a).hpaMinPodsNum (V4.baseLabelOf a) =
        (match a.minReplicas with
         | some m => some (m : ℚ)
         | none => r.hpaMinPodsNum (V4.baseLabelOf a))) ∧
    (∀ (r : V4.RegState) (a : V4.Hpa),
      (V4.processHpa r a).hpaLastScaleSecond (V4.baseLabelOf a) =
        (match a.lastScaleTimeUnix with
         | some t => some (t : ℚ)
         | none => r.hpaLastScaleSecond (V4.baseLabelOf a))) ∧
    (∀ (r : V3.RegState) (a : V3.Hpa) (cv : Int),
      (V3.publishBase a cv r).hpaCurrentPodsNum (V3.baseLabelOf a) =
          some (a.currentReplicas : ℚ) ∧
      (V3.publishBase a cv r).hpaMinPodsNum (V3.baseLabelOf a) =
        (match a.minReplicas with
         | some m => some (m : ℚ)
         | none => r.hpaMinPodsNum (V3.baseLabelOf a)) ∧
      (V3.publishBase a cv r).hpaCurrentCpuPercentage (V3.baseLabelOf a) =
        (match a.currentCPUUtilizationPercentage with
         | some p => some (p : ℚ)
         | none => r.hpaCurrentCpuPercentage (V3.baseLabelOf a)) ∧
      (V3.publishBase a cv r).hpaTargetCpuPercentage (V3.baseLabelOf a) =
        (match a.targetCPUUtilizationPercentage with
         | some p => some (p : ℚ)
         | none => r.hpaTargetCpuPercentage (V3.baseLabelOf a)) ∧
      (V3.publishBase a cv r).hpaLastScaleSecond (V3.baseLabelOf a) =
        (match a.lastScaleTimeUnix with
         | some t => some (t : ℚ)
         | none => r.hpaLastScaleSecond (V3.baseLabelOf a))) := by
  refine ⟨rfl, fun r a => rfl,
    fun r a => by cases a.minReplicas <;> rfl,
    fun r a => by cases a.minReplicas <;> cases a.currentCPUUtilizationPercentage <;> rfl,
    by decide, by decide,
    processHpaV4_current, processHpaV4_min, processHpaV4_lastScale, ?_⟩
  intro r a cv
  have h := publishBase_projections r a cv
  exact ⟨h.1, h.2.2.2.2.1, h.2.2.2.2.2.1, h.2.2.2.2.2.2.1, h.2.2.2.2.2.2.2⟩

end HpaExporter

namespace HpaExporter.V3

/-- State of one condition family during `part_003`'s condition loop: the
forward cache, the reverse cache and the gauge family. -/
def FamState : Type :=
  (String → Option CondLabels) × (String → Option CondLabels) ×
    (BaseLabels × CondLabels → Option ℚ)

/-- The restriction of `part_003`'s condition loop to a single family:
fold the relabeling step over the conditions of that type. -/
def famFold (b : BaseLabels) (n : String) (s : FamState) (l : List Condition) :
    FamState :=
  l.foldl (fun t c => relabelCondition b n c t.1 t.2.1 t.2.2) s

/-- The last element of the nonempty list `c :: l`. -/
def lastCond (c : Condition) (l : List Condition) : Condition :=
  match l with
  | [] => c
  | c' :: l' => lastCond c' l'

/-- The two label sets a condition contributes. -/
def condPair (c : Condition) : List CondLabels :=
  [(makeAnnotCondLabels c).1, (makeAnnotCondLabels c).2]

/-- The condition label sets that get deleted over a run of the family
fold: the initially cached pair plus the pairs of every condition except
the last one. -/
def oldCondKeys (o1 o2 : Option CondLabels) (l : List Condition) : List CondLabels :=
  o1.toList ++ o2.toList ++ l.dropLast.flatMap condPair

theorem mem_oldCondKeys (o1 o2 : Option CondLabels) (l : List Condition) (x : CondLabels) :
    x ∈ oldCondKeys o1 o2 l ↔
      o1 = some x ∨ o2 = some x ∨ x ∈ l.dropLast.flatMap condPair := by
  cases o1 <;> cases o2 <;>
    simp [oldCondKeys, eq_comm]

theorem delCached_eval (m : BaseLabels × CondLabels → Option ℚ) (b : BaseLabels)
    (o : Option CondLabels) (c : CondLabels) :
    delCached m b o (b, c) = if o = some c then none else m (b, c) := by
  cases o with
  | none => simp [delCached]
  | some x =>
    by_cases h : x = c
    · subst h
      simp [delCached, upd_self]
    · have hk : ((b, c) : BaseLabels × CondLabels) ≠ (b, x) := by
        simp [Prod.ext_iff, Ne.symm h]
      simp [delCached, upd_ne _ _ _ _ hk, h]

/-- Pointwise characterization of a single relabeling step on the gauge
family. -/
theorem relabel_fam_eval (b : BaseLabels) (n : String) (cond : Condition)
    (cacheF cacheR : String → Option CondLabels)
    (fam : BaseLabels × CondLabels → Option ℚ) (k : BaseLabels × CondLabels) :
    (relabelCondition b n cond cacheF cacheR fam).2.2 k =
      if k = (b, (makeAnnotCondLabels cond).1) then some 1
      else if k = (b, (makeAnnotCondLabels cond).2) then some 0
      else if k.1 = b ∧ (cacheF n = some k.2 ∨ cacheR n = some k.2) then none
      else fam k := by
  have hne := makeAnnotCondLabels_fst_ne_snd cond
  by_cases h2 : k = (b, (makeAnnotCondLabels cond).2)
  · subst h2
    have h1 : ((b, (makeAnnotCondLabels cond).2) : BaseLabels × CondLabels) ≠
        (b, (makeAnnotCondLabels cond).1) := by
      simp [Prod.ext_iff, Ne.symm hne]
    rw [if_neg h1, if_pos rfl]
    simp [relabelCondition, upd_self]
  · by_cases h1 : k = (b, (makeAnnotCondLabels cond).1)
    · subst h1
      rw [if_pos rfl]
      simp only [relabelCondition]
      rw [upd_ne _ _ _ _ h2, upd_self]
    · rw [if_neg h1, if_neg h2]
      simp only [relabelCondition]
      rw [upd_ne _ _ _ _ h2, upd_ne _ _ _ _ h1]
      obtain ⟨k1, k2⟩ := k
      by_cases hb : k1 = b
      · subst hb
        rw [delCached_eval, delCached_eval]
        by_cases hr : cacheR n = some k2
        · simp [hr]
        · by_cases hf : cacheF n = some k2
          · simp [hr, hf]
          · simp [hr, hf]
      · rw [delCached_ne_base _ _ _ _ hb, delCached_ne_base _ _ _ _ hb]
        simp [hb]

end HpaExporter.V3

namespace HpaExporter.V3

theorem famFold_nil (b : BaseLabels) (n : String) (s : FamState) :
    famFold b n s [] = s := rfl

theorem famFold_cons (b : BaseLabels) (n : String) (s : FamState)
    (c : Condition) (l : List Condition) :
    famFold b n s (c :: l) =
      famFold b n (relabelCondition b n c s.1 s.2.1 s.2.2) l := rfl

theorem relabelCondition_eta (b : BaseLabels) (n : String) (cond : Condition)
    (cf cr : String → Option CondLabels) (fam : BaseLabels × CondLabels → Option ℚ) :
    relabelCondition b n cond cf cr fam =
      (upd cf n (some (makeAnnotCondLabels cond).1),
       upd cr n (some (makeAnnotCondLabels cond).2),
       (relabelCondition b n cond cf cr fam).2.2) := rfl

theorem lastCond_cons (c c2 : Condition) (l : List Condition) :
    lastCond c (c2 :: l) = lastCond c2 l := rfl

theorem dropLast_cons_cons (x y : Condition) (zs : List Condition) :
    (x :: y :: zs).dropLast = x :: (y :: zs).dropLast := rfl

theorem famFold_cacheF (b : BaseLabels) (n : String) :
    ∀ (l : List Condition) (c : Condition) (cf cr : String → Option CondLabels)
      (fam : BaseLabels × CondLabels → Option ℚ),
      (famFold b n (cf, cr, fam) (c :: l)).1 =
        upd cf n (some (makeAnnotCondLabels (lastCond c l)).1) := by
  intro l
  induction l with
  | nil => intro c cf cr fam; rfl
  | cons c2 l'' ih =>
    intro c cf cr fam
    rw [famFold_cons]
    rw [show (((cf, cr, fam) : FamState)).1 = cf from rfl]
    rw [relabelCondition_eta, ih, upd_upd, lastCond_cons]

theorem famFold_cacheR (b : BaseLabels) (n : String) :
    ∀ (l : List Condition) (c : Condition) (cf cr : String → Option CondLabels)
      (fam : BaseLabels × CondLabels → Option ℚ),
      (famFold b n (cf, cr, fam) (c :: l)).2.1 =
        upd cr n (some (makeAnnotCondLabels (lastCond c l)).2) := by
  intro l
  induction l with
  | nil => intro c cf cr fam; rfl
  | cons c2 l'' ih =>
    intro c cf cr fam
    rw [famFold_cons]
    rw [relabelCondition_eta, ih, upd_upd, lastCond_cons]

theorem relabel_fam_eval_at (b : BaseLabels) (n : String) (cond : Condition)
    (cacheF cacheR : String → Option CondLabels)
    (fam : BaseLabels × CondLabels → Option ℚ) (k2 : CondLabels) :
    (relabelCondition b n cond cacheF cacheR fam).2.2 (b, k2) =
      if k2 = (makeAnnotCondLabels cond).1 then some 1
      else if k2 = (makeAnnotCondLabels cond).2 then some 0
      else if cacheF n = some k2 ∨ cacheR n = some k2 then none
      else fam (b, k2) := by
  rw [relabel_fam_eval]
  simp [Prod.ext_iff]

theorem relabel_fam_eval_ne (b : BaseLabels) (n : String) (cond : Condition)
    (cacheF cacheR : String → Option CondLabels)
    (fam : BaseLabels × CondLabels → Option ℚ) (k : BaseLabels × CondLabels)
    (hk : k.1 ≠ b) :
    (relabelCondition b n cond cacheF cacheR fam).2.2 k = fam k := by
  rw [relabel_fam_eval]
  rw [if_neg (by intro h; exact hk (congrArg Prod.fst h))]
  rw [if_neg (by intro h; exact hk (congrArg Prod.fst h))]
  rw [if_neg (by intro h; exact hk h.1)]

theorem famFold_fam_ne (b : BaseLabels) (n : String) :
    ∀ (l : List Condition) (s : FamState) (k : BaseLabels × CondLabels),
      k.1 ≠ b → (famFold b n s l).2.2 k = s.2.2 k := by
  intro l
  induction l with
  | nil => intro s k hk; rfl
  | cons c l' ih =>
    intro s k hk
    rw [famFold_cons, ih _ k hk]
    exact relabel_fam_eval_ne b n c s.1 s.2.1 s.2.2 k hk

theorem famFold_fam_at (b : BaseLabels) (n : String) :
    ∀ (l : List Condition) (c : Condition) (cf cr : String → Option CondLabels)
      (fam : BaseLabels × CondLabels → Option ℚ) (k2 : CondLabels),
      (famFold b n (cf, cr, fam) (c :: l)).2.2 (b, k2) =
        if k2 = (makeAnnotCondLabels (lastCond c l)).1 then some 1
        else if k2 = (makeAnnotCondLabels (lastCond c l)).2 then some 0
        else if cf n = some k2 ∨ cr n = some k2 ∨
            k2 ∈ (c :: l).dropLast.flatMap condPair then none
        else fam (b, k2) := by
  intro l
  induction l with
  | nil =>
    intro c cf cr fam k2
    rw [show famFold b n (cf, cr, fam) [c] = relabelCondition b n c cf cr fam from rfl]
    rw [relabel_fam_eval_at]
    have hiff : (cf n = some k2 ∨ cr n = some k2) ↔
        (cf n = some k2 ∨ cr n = some k2 ∨ k2 ∈ ([c] : List Condition).dropLast.flatMap condPair) := by
      simp
    rw [if_congr hiff rfl rfl]
    rfl
  | cons c2 l'' ih =>
    intro c cf cr fam k2
    rw [famFold_cons, relabelCondition_eta]
    rw [ih c2 _ _ _ k2]
    rw [upd_self, upd_self, lastCond_cons]
    by_cases h1 : k2 = (makeAnnotCondLabels (lastCond c2 l'')).1
    · rw [if_pos h1, if_pos h1]
    · rw [if_neg h1, if_neg h1]
      by_cases h2 : k2 = (makeAnnotCondLabels (lastCond c2 l'')).2
      · rw [if_pos h2, if_pos h2]
      · rw [if_neg h2, if_neg h2]
        have hsplit : (c :: c2 :: l'').dropLast.flatMap condPair =
            condPair c ++ (c2 :: l'').dropLast.flatMap condPair := by
          rw [dropLast_cons_cons, List.flatMap_cons]
        by_cases hA : some (makeAnnotCondLabels c).1 = some k2 ∨
            some (makeAnnotCondLabels c).2 = some k2 ∨
            k2 ∈ (c2 :: l'').dropLast.flatMap condPair
        · rw [if_pos hA, if_pos ?hr]
          case hr =>
            right
            right
            rw [hsplit]
            rcases hA with h | h | h
            · refine List.mem_append_left _ ?_
              rw [← Option.some_inj.mp h]
              exact List.mem_cons_self _ _
            · refine List.mem_append_left _ ?_
              rw [← Option.some_inj.mp h]
              simp [condPair]
            · exact List.mem_append_right _ h
        · rw [if_neg hA]
          push_neg at hA
          obtain ⟨hA1, hA2, hA3⟩ := hA
          rw [relabel_fam_eval_at]
          rw [if_neg (fun h => hA1 (by rw [h]))]
          rw [if_neg (fun h => hA2 (by rw [h]))]
          by_cases hcf : cf n = some k2 ∨ cr n = some k2
          · rw [if_pos hcf, if_pos ?hp]
            case hp =>
              rcases hcf with h | h
              · exact Or.inl h
              · exact Or.inr (Or.inl h)
          · rw [if_neg hcf]
            push_neg at hcf
            rw [if_neg ?hq]
            case hq =>
              intro hcon
              rcases hcon with h | h | h
              · exact hcf.1 h
              · exact hcf.2 h
              · rw [hsplit] at h
                rcases List.mem_append.mp h with h | h
                · simp only [condPair, List.mem_cons, List.not_mem_nil, or_false] at h
                  rcases h with h | h
                  · exact hA1 (by rw [h])
                  · exact hA2 (by rw [h])
                · exact hA3 h

theorem famFold_idem (b : BaseLabels) (n : String) (l : List Condition) (s : FamState) :
    famFold b n (famFold b n s l) l = famFold b n s l := by
  cases l with
  | nil => rfl
  | cons c l' =>
    obtain ⟨cf, cr, fam⟩ := s
    have hcf : (famFold b n (cf, cr, fam) (c :: l')).1 =
        upd cf n (some (makeAnnotCondLabels (lastCond c l')).1) :=
      famFold_cacheF b n l' c cf cr fam
    have hcr : (famFold b n (cf, cr, fam) (c :: l')).2.1 =
        upd cr n (some (makeAnnotCondLabels (lastCond c l')).2) :=
      famFold_cacheR b n l' c cf cr fam
    set σ := famFold b n (cf, cr, fam) (c :: l') with hσ
    have h1 : (famFold b n σ (c :: l')).1 = σ.1 := by
      have hx := famFold_cacheF b n l' c σ.1 σ.2.1 σ.2.2
      rw [show ((σ.1, σ.2.1, σ.2.2) : FamState) = σ from rfl] at hx
      rw [hx, hcf, upd_upd]
    have h2 : (famFold b n σ (c :: l')).2.1 = σ.2.1 := by
      have hx := famFold_cacheR b n l' c σ.1 σ.2.1 σ.2.2
      rw [show ((σ.1, σ.2.1, σ.2.2) : FamState) = σ from rfl] at hx
      rw [hx, hcr, upd_upd]
    have h3 : (famFold b n σ (c :: l')).2.2 = σ.2.2 := by
      funext k
      obtain ⟨k1, k2⟩ := k
      by_cases hb : b = k1
      · subst hb
        have h2nd := famFold_fam_at b n l' c σ.1 σ.2.1 σ.2.2 k2
        rw [show ((σ.1, σ.2.1, σ.2.2) : FamState) = σ from rfl] at h2nd
        rw [h2nd, hcf, hcr, upd_self, upd_self]
        have h1st := famFold_fam_at b n l' c cf cr fam k2
        rw [← hσ] at h1st
        by_cases e1 : k2 = (makeAnnotCondLabels (lastCond c l')).1
        · rw [if_pos e1, h1st, if_pos e1]
        · rw [if_neg e1]
          by_cases e2 : k2 = (makeAnnotCondLabels (lastCond c l')).2
          · rw [if_pos e2, h1st, if_neg e1, if_pos e2]
          · rw [if_neg e2]
            by_cases em : k2 ∈ (c :: l').dropLast.flatMap condPair
            · rw [if_pos (Or.inr (Or.inr em))]
              rw [h1st, if_neg e1, if_neg e2, if_pos (Or.inr (Or.inr em))]
            · rw [if_neg ?hnc]
              case hnc =>
                intro hcon
                rcases hcon with h | h | h
                · exact e1 (Option.some_inj.mp h).symm
                · exact e2 (Option.some_inj.mp h).symm
                · exact em h
      · exact famFold_fam_ne b n (c :: l') σ (k1, k2) (fun h => hb h.symm)
    have hfin : famFold b n σ (c :: l') =
        ((famFold b n σ (c :: l')).1,
         (famFold b n σ (c :: l')).2.1,
         (famFold b n σ (c :: l')).2.2) := rfl
    rw [hfin, h1, h2, h3]
    rfl

end HpaExporter.V3

namespace HpaExporter.V3

/-- The eight base-series families of a `part_003` registry, as a tuple. -/
def regBase (r : RegState) :=
  (r.hpaCurrentPodsNum, r.hpaDesiredPodsNum, r.hpaMinPodsNum, r.hpaMaxPodsNum,
   r.hpaCurrentCpuValue, r.hpaCurrentCpuPercentage, r.hpaTargetCpuPercentage,
   r.hpaLastScaleSecond)

/-- The three condition families of a `part_003` registry, as a tuple. -/
def regCond (r : RegState) :=
  (r.hpaAbleToScale, r.hpaScalingActive, r.hpaScalingLimited)

theorem applyCondition_keeps_regBase (b : BaseLabels) (n : String) :
    ∀ (st : TickState) (c : Condition),
      regBase (applyCondition b n st c).reg = regBase st.reg := by
  intro st c
  unfold applyCondition
  split_ifs <;> rfl

theorem condFold_keeps_regBase (b : BaseLabels) (n : String) (l : List Condition)
    (st : TickState) :
    regBase ((l.foldl (applyCondition b n) st).reg) = regBase st.reg :=
  foldl_preserves (applyCondition b n) (fun s => regBase s.reg)
    (applyCondition_keeps_regBase b n) l st

theorem publishBase_keeps_regCond (a : Hpa) (cv : Int) (r : RegState) :
    regCond (publishBase a cv r) = regCond r := by
  cases hmin : a.minReplicas <;> cases hcur : a.currentCPUUtilizationPercentage <;>
    cases htgt : a.targetCPUUtilizationPercentage <;> cases hls : a.lastScaleTimeUnix <;>
      simp [publishBase, regCond, hmin, hcur, htgt, hls]

theorem publishBase_fields (a : Hpa) (cv : Int) (r : RegState) :
    (publishBase a cv r).hpaCurrentPodsNum =
      upd r.hpaCurrentPodsNum (baseLabelOf a) (some (a.currentReplicas : ℚ)) ∧
    (publishBase a cv r).hpaDesiredPodsNum =
      upd r.hpaDesiredPodsNum (baseLabelOf a) (some (a.desiredReplicas : ℚ)) ∧
    (publishBase a cv r).hpaMaxPodsNum =
      upd r.hpaMaxPodsNum (baseLabelOf a) (some (a.maxReplicas : ℚ)) ∧
    (publishBase a cv r).hpaCurrentCpuValue =
      upd r.hpaCurrentCpuValue (baseLabelOf a) (some (cv : ℚ)) ∧
    (publishBase a cv r).hpaMinPodsNum =
      (match a.minReplicas with
       | some m => upd r.hpaMinPodsNum (baseLabelOf a) (some (m : ℚ))
       | none => r.hpaMinPodsNum) ∧
    (publishBase a cv r).hpaCurrentCpuPercentage =
      (match a.currentCPUUtilizationPercentage with
       | some p => upd r.hpaCurrentCpuPercentage (baseLabelOf a) (some (p : ℚ))
       | none => r.hpaCurrentCpuPercentage) ∧
    (publishBase a cv r).hpaTargetCpuPercentage =
      (match a.targetCPUUtilizationPercentage with
       | some p => upd r.hpaTargetCpuPercentage (baseLabelOf a) (some (p : ℚ))
       | none => r.hpaTargetCpuPercentage) ∧
    (publishBase a cv r).hpaLastScaleSecond =
      (match a.lastScaleTimeUnix with
       | some t => upd r.hpaLastScaleSecond (baseLabelOf a) (some (t : ℚ))
       | none => r.hpaLastScaleSecond) := by
  cases hmin : a.minReplicas <;> cases hcur : a.currentCPUUtilizationPercentage <;>
    cases htgt : a.targetCPUUtilizationPercentage <;> cases hls : a.lastScaleTimeUnix <;>
      simp [publishBase, hmin, hcur, htgt, hls]

theorem regState_ext {r1 r2 : RegState}
    (h1 : r1.hpaCurrentPodsNum = r2.hpaCurrentPodsNum)
    (h2 : r1.hpaDesiredPodsNum = r2.hpaDesiredPodsNum)
    (h3 : r1.hpaMinPodsNum = r2.hpaMinPodsNum)
    (h4 : r1.hpaMaxPodsNum = r2.hpaMaxPodsNum)
    (h5 : r1.hpaCurrentCpuValue = r2.hpaCurrentCpuValue)
    (h6 : r1.hpaCurrentCpuPercentage = r2.hpaCurrentCpuPercentage)
    (h7 : r1.hpaTargetCpuPercentage = r2.hpaTargetCpuPercentage)
    (h8 : r1.hpaLastScaleSecond = r2.hpaLastScaleSecond)
    (h9 : r1.hpaAbleToScale = r2.hpaAbleToScale)
    (h10 : r1.hpaScalingActive = r2.hpaScalingActive)
    (h11 : r1.hpaScalingLimited = r2.hpaScalingLimited) : r1 = r2 := by
  cases r1
  cases r2
  simp only [RegState.mk.injEq]
  exact ⟨h1, h2, h3, h4, h5, h6, h7, h8, h9, h10, h11⟩

theorem cacheState_ext {s1 s2 : CacheState}
    (h1 : s1.ableToScale = s2.ableToScale)
    (h2 : s1.ableToScaleRev = s2.ableToScaleRev)
    (h3 : s1.scalingActive = s2.scalingActive)
    (h4 : s1.scalingActiveRev = s2.scalingActiveRev)
    (h5 : s1.scalingLimited = s2.scalingLimited)
    (h6 : s1.scalingLimitedRev = s2.scalingLimitedRev) : s1 = s2 := by
  cases s1
  cases s2
  simp only [CacheState.mk.injEq]
  exact ⟨h1, h2, h3, h4, h5, h6⟩

theorem tickState_ext {s1 s2 : TickState}
    (hreg : s1.reg = s2.reg) (hcache : s1.cache = s2.cache) : s1 = s2 := by
  cases s1
  cases s2
  simp only [TickState.mk.injEq]
  exact ⟨hreg, hcache⟩

end HpaExporter.V3

namespace HpaExporter.V3

theorem condFold_ableToScale (b : BaseLabels) (n : String) :
    ∀ (l : List Condition) (st : TickState),
      ((l.foldl (applyCondition b n) st).cache.ableToScale,
       (l.foldl (applyCondition b n) st).cache.ableToScaleRev,
       (l.foldl (applyCondition b n) st).reg.hpaAbleToScale) =
        famFold b n (st.cache.ableToScale, st.cache.ableToScaleRev, st.reg.hpaAbleToScale)
          (l.filter (fun c => c.type == "AbleToScale")) := by
  intro l
  induction l with
  | nil => intro st; rfl
  | cons c l' ih =>
    intro st
    rw [List.foldl_cons, List.filter_cons]
    by_cases h1 : c.type = "AbleToScale"
    · rw [if_pos (by simp [h1]), famFold_cons, ih (applyCondition b n st c)]
      have heq : ((applyCondition b n st c).cache.ableToScale,
          (applyCondition b n st c).cache.ableToScaleRev,
          (applyCondition b n st c).reg.hpaAbleToScale) =
            relabelCondition b n c st.cache.ableToScale st.cache.ableToScaleRev
              st.reg.hpaAbleToScale := by
        simp [applyCondition, h1]
      rw [heq]
    · rw [if_neg (by simp [h1]), ih (applyCondition b n st c)]
      have heq : ((applyCondition b n st c).cache.ableToScale,
          (applyCondition b n st c).cache.ableToScaleRev,
          (applyCondition b n st c).reg.hpaAbleToScale) =
            (st.cache.ableToScale, st.cache.ableToScaleRev, st.reg.hpaAbleToScale) := by
        by_cases h2 : c.type = "ScalingActive" <;> by_cases h3 : c.type = "ScalingLimited" <;>
          simp [applyCondition, h1, h2, h3]
      rw [heq]

theorem condFold_scalingActive (b : BaseLabels) (n : String) :
    ∀ (l : List Condition) (st : TickState),
      ((l.foldl (applyCondition b n) st).cache.scalingActive,
       (l.foldl (applyCondition b n) st).cache.scalingActiveRev,
       (l.foldl (applyCondition b n) st).reg.hpaScalingActive) =
        famFold b n (st.cache.scalingActive, st.cache.scalingActiveRev, st.reg.hpaScalingActive)
          (l.filter (fun c => c.type == "ScalingActive")) := by
  intro l
  induction l with
  | nil => intro st; rfl
  | cons c l' ih =>
    intro st
    rw [List.foldl_cons, List.filter_cons]
    by_cases h1 : c.type = "ScalingActive"
    · have h0 : ¬c.type = "AbleToScale" := by
        rw [h1]
        decide
      rw [if_pos (by simp [h1]), famFold_cons, ih (applyCondition b n st c)]
      have heq : ((applyCondition b n st c).cache.scalingActive,
          (applyCondition b n st c).cache.scalingActiveRev,
          (applyCondition b n st c).reg.hpaScalingActive) =
            relabelCondition b n c st.cache.scalingActive st.cache.scalingActiveRev
              st.reg.hpaScalingActive := by
        simp [applyCondition, h0, h1]
      rw [heq]
    · rw [if_neg (by simp [h1]), ih (applyCondition b n st c)]
      have heq : ((applyCondition b n st c).cache.scalingActive,
          (applyCondition b n st c).cache.scalingActiveRev,
          (applyCondition b n st c).reg.hpaScalingActive) =
            (st.cache.scalingActive, st.cache.scalingActiveRev, st.reg.hpaScalingActive) := by
        by_cases h0 : c.type = "AbleToScale" <;> by_cases h3 : c.type = "ScalingLimited" <;>
          simp [applyCondition, h0, h1, h3]
      rw [heq]

theorem condFold_scalingLimited (b : BaseLabels) (n : String) :
    ∀ (l : List Condition) (st : TickState),
      ((l.foldl (applyCondition b n) st).cache.scalingLimited,
       (l.foldl (applyCondition b n) st).cache.scalingLimitedRev,
       (l.foldl (applyCondition b n) st).reg.hpaScalingLimited) =
        famFold b n (st.cache.scalingLimited, st.cache.scalingLimitedRev, st.reg.hpaScalingLimited)
          (l.filter (fun c => c.type == "ScalingLimited")) := by
  intro l
  induction l with
  | nil => intro st; rfl
  | cons c l' ih =>
    intro st
    rw [List.foldl_cons, List.filter_cons]
    by_cases h1 : c.type = "ScalingLimited"
    · have h0 : ¬c.type = "AbleToScale" := by
        rw [h1]
        decide
      have h2 : ¬c.type = "ScalingActive" := by
        rw [h1]
        decide
      rw [if_pos (by simp [h1]), famFold_cons, ih (applyCondition b n st c)]
      have heq : ((applyCondition b n st c).cache.scalingLimited,
          (applyCondition b n st c).cache.scalingLimitedRev,
          (applyCondition b n st c).reg.hpaScalingLimited) =
            relabelCondition b n c st.cache.scalingLimited st.cache.scalingLimitedRev
              st.reg.hpaScalingLimited := by
        simp [applyCondition, h0, h2, h1]
      rw [heq]
    · rw [if_neg (by simp [h1]), ih (applyCondition b n st c)]
      have heq : ((applyCondition b n st c).cache.scalingLimited,
          (applyCondition b n st c).cache.scalingLimitedRev,
          (applyCondition b n st c).reg.hpaScalingLimited) =
            (st.cache.scalingLimited, st.cache.scalingLimitedRev, st.reg.hpaScalingLimited) := by
        by_cases h0 : c.type = "AbleToScale" <;> by_cases h2 : c.type = "ScalingActive" <;>
          simp [applyCondition, h0, h2, h1]
      rw [heq]

end HpaExporter.V3

namespace HpaExporter.V3

/-- The cpu value computed at the top of `part_003`'s per-autoscaler loop:
the first current-metrics entry's parsed average cpu value, or 0 when the
list is empty. -/
def cpuValOf (metrics : List CurrentMetrics) : Int :=
  match metrics with
  | [] => 0
  | m :: _ => currentAverageCpuValue m

theorem processHpa_ok (st : TickState) (a : Hpa) (metrics : List CurrentMetrics)
    (conds : List Condition) (hm : a.currentMetricsAnno = some metrics)
    (hc : a.conditionsAnno = some conds) :
    processHpa st a = conds.foldl (applyCondition (baseLabelOf a) a.name)
      { reg := publishBase a (cpuValOf metrics) st.reg, cache := st.cache } := by
  simp only [processHpa, hm, hc, cpuValOf]

theorem condFold_keeps_f1 (b : BaseLabels) (n : String) (l : List Condition)
    (st : TickState) :
    (l.foldl (applyCondition b n) st).reg.hpaCurrentPodsNum = st.reg.hpaCurrentPodsNum :=
  congrArg (fun t => t.1) (condFold_keeps_regBase b n l st)

theorem condFold_keeps_f2 (b : BaseLabels) (n : String) (l : List Condition)
    (st : TickState) :
    (l.foldl (applyCondition b n) st).reg.hpaDesiredPodsNum = st.reg.hpaDesiredPodsNum :=
  congrArg (fun t => t.2.1) (condFold_keeps_regBase b n l st)

theorem condFold_keeps_f3 (b : BaseLabels) (n : String) (l : List Condition)
    (st : TickState) :
    (l.foldl (applyCondition b n) st).reg.hpaMinPodsNum = st.reg.hpaMinPodsNum :=
  congrArg (fun t => t.2.2.1) (condFold_keeps_regBase b n l st)

theorem condFold_keeps_f4 (b : BaseLabels) (n : String) (l : List Condition)
    (st : TickState) :
    (l.foldl (applyCondition b n) st).reg.hpaMaxPodsNum = st.reg.hpaMaxPodsNum :=
  congrArg (fun t => t.2.2.2.1) (condFold_keeps_regBase b n l st)

theorem condFold_keeps_f5 (b : BaseLabels) (n : String) (l : List Condition)
    (st : TickState) :
    (l.foldl (applyCondition b n) st).reg.hpaCurrentCpuValue = st.reg.hpaCurrentCpuValue :=
  congrArg (fun t => t.2.2.2.2.1) (condFold_keeps_regBase b n l st)

theorem condFold_keeps_f6 (b : BaseLabels) (n : String) (l : List Condition)
    (st : TickState) :
    (l.foldl (applyCondition b n) st).reg.hpaCurrentCpuPercentage =
      st.reg.hpaCurrentCpuPercentage :=
  congrArg (fun t => t.2.2.2.2.2.1) (condFold_keeps_regBase b n l st)

theorem condFold_keeps_f7 (b : BaseLabels) (n : String) (l : List Condition)
    (st : TickState) :
    (l.foldl (applyCondition b n) st).reg.hpaTargetCpuPercentage =
      st.reg.hpaTargetCpuPercentage :=
  congrArg (fun t => t.2.2.2.2.2.2.1) (condFold_keeps_regBase b n l st)

theorem condFold_keeps_f8 (b : BaseLabels) (n : String) (l : List Condition)
    (st : TickState) :
    (l.foldl (applyCondition b n) st).reg.hpaLastScaleSecond = st.reg.hpaLastScaleSecond :=
  congrArg (fun t => t.2.2.2.2.2.2.2) (condFold_keeps_regBase b n l st)

theorem publishBase_able (a : Hpa) (cv : Int) (r : RegState) :
    (publishBase a cv r).hpaAbleToScale = r.hpaAbleToScale :=
  congrArg (fun t => t.1) (publishBase_keeps_regCond a cv r)

theorem publishBase_scalingActive (a : Hpa) (cv : Int) (r : RegState) :
    (publishBase a cv r).hpaScalingActive = r.hpaScalingActive :=
  congrArg (fun t => t.2.1) (publishBase_keeps_regCond a cv r)

theorem publishBase_scalingLimited (a : Hpa) (cv : Int) (r : RegState) :
    (publishBase a cv r).hpaScalingLimited = r.hpaScalingLimited :=
  congrArg (fun t => t.2.2) (publishBase_keeps_regCond a cv r)

end HpaExporter.V3

namespace HpaExporter.V3

theorem upd_collapse {κ α : Type} [DecidableEq κ] {m1 m2 : κ → Option α} {k : κ}
    {v : Option α} (h : m1 = upd m2 k v) : upd m1 k v = m1 := by
  rw [h, upd_upd]

theorem processHpa_idem (st : TickState) (a : Hpa) :
    processHpa (processHpa st a) a = processHpa st a := by
  cases hm : a.currentMetricsAnno with
  | none => simp [processHpa, hm]
  | some metrics =>
    cases hc : a.conditionsAnno with
    | none => simp [processHpa, hm, hc]
    | some conds =>
      rw [processHpa_ok st a metrics conds hm hc]
      set σ := conds.foldl (applyCondition (baseLabelOf a) a.name)
        { reg := publishBase a (cpuValOf metrics) st.reg, cache := st.cache } with hσ
      rw [processHpa_ok σ a metrics conds hm hc]
      have hf := publishBase_fields a (cpuValOf metrics) st.reg
      have hg := publishBase_fields a (cpuValOf metrics) σ.reg
      -- the three family triples after the first tick
      have hA1 : (σ.cache.ableToScale, σ.cache.ableToScaleRev, σ.reg.hpaAbleToScale) =
          famFold (baseLabelOf a) a.name
            (st.cache.ableToScale, st.cache.ableToScaleRev, st.reg.hpaAbleToScale)
            (conds.filter (fun c => c.type == "AbleToScale")) := by
        rw [hσ]
        have h0 : ((conds.foldl (applyCondition (baseLabelOf a) a.name)
            { reg := publishBase a (cpuValOf metrics) st.reg, cache := st.cache }).cache.ableToScale,
            (conds.foldl (applyCondition (baseLabelOf a) a.name)
            { reg := publishBase a (cpuValOf metrics) st.reg, cache := st.cache }).cache.ableToScaleRev,
            (conds.foldl (applyCondition (baseLabelOf a) a.name)
            { reg := publishBase a (cpuValOf metrics) st.reg, cache := st.cache }).reg.hpaAbleToScale) =
            famFold (baseLabelOf a) a.name
              (st.cache.ableToScale, st.cache.ableToScaleRev,
               (publishBase a (cpuValOf metrics) st.reg).hpaAbleToScale)
              (conds.filter (fun c => c.type == "AbleToScale")) :=
          condFold_ableToScale (baseLabelOf a) a.name conds
            { reg := publishBase a (cpuValOf metrics) st.reg, cache := st.cache }
        rw [publishBase_able] at h0
        exact h0
      have hS1 : (σ.cache.scalingActive, σ.cache.scalingActiveRev, σ.reg.hpaScalingActive) =
          famFold (baseLabelOf a) a.name
            (st.cache.scalingActive, st.cache.scalingActiveRev, st.reg.hpaScalingActive)
            (conds.filter (fun c => c.type == "ScalingActive")) := by
        rw [hσ]
        have h0 : ((conds.foldl (applyCondition (baseLabelOf a) a.name)
            { reg := publishBase a (cpuValOf metrics) st.reg, cache := st.cache }).cache.scalingActive,
            (conds.foldl (applyCondition (baseLabelOf a) a.name)
            { reg := publishBase a (cpuValOf metrics) st.reg, cache := st.cache }).cache.scalingActiveRev,
            (conds.foldl (applyCondition (baseLabelOf a) a.name)
            { reg := publishBase a (cpuValOf metrics) st.reg, cache := st.cache }).reg.hpaScalingActive) =
            famFold (baseLabelOf a) a.name
              (st.cache.scalingActive, st.cache.scalingActiveRev,
               (publishBase a (cpuValOf metrics) st.reg).hpaScalingActive)
              (conds.filter (fun c => c.type == "ScalingActive")) :=
          condFold_scalingActive (baseLabelOf a) a.name conds
            { reg := publishBase a (cpuValOf metrics) st.reg, cache := st.cache }
        rw [publishBase_scalingActive] at h0
        exact h0
      have hL1 : (σ.cache.scalingLimited, σ.cache.scalingLimitedRev, σ.reg.hpaScalingLimited) =
          famFold (baseLabelOf a) a.name
            (st.cache.scalingLimited, st.cache.scalingLimitedRev, st.reg.hpaScalingLimited)
            (conds.filter (fun c => c.type == "ScalingLimited")) := by
        rw [hσ]
        have h0 : ((conds.foldl (applyCondition (baseLabelOf a) a.name)
            { reg := publishBase a (cpuValOf metrics) st.reg, cache := st.cache }).cache.scalingLimited,
            (conds.foldl (applyCondition (baseLabelOf a) a.name)
            { reg := publishBase a (cpuValOf metrics) st.reg, cache := st.cache }).cache.scalingLimitedRev,
            (conds.foldl (applyCondition (baseLabelOf a) a.name)
            { reg := publishBase a (cpuValOf metrics) st.reg, cache := st.cache }).reg.hpaScalingLimited) =
            famFold (baseLabelOf a) a.name
              (st.cache.scalingLimited, st.cache.scalingLimitedRev,
               (publishBase a (cpuValOf metrics) st.reg).hpaScalingLimited)
              (conds.filter (fun c => c.type == "ScalingLimited")) :=
          condFold_scalingLimited (baseLabelOf a) a.name conds
            { reg := publishBase a (cpuValOf metrics) st.reg, cache := st.cache }
        rw [publishBase_scalingLimited] at h0
        exact h0
      -- the three family triples after the second tick equal the first-tick triples
      have hA2 : ((conds.foldl (applyCondition (baseLabelOf a) a.name)
          { reg := publishBase a (cpuValOf metrics) σ.reg, cache := σ.cache }).cache.ableToScale,
          (conds.foldl (applyCondition (baseLabelOf a) a.name)
          { reg := publishBase a (cpuValOf metrics) σ.reg, cache := σ.cache }).cache.ableToScaleRev,
          (conds.foldl (applyCondition (baseLabelOf a) a.name)
          { reg := publishBase a (cpuValOf metrics) σ.reg, cache := σ.cache }).reg.hpaAbleToScale) =
          (σ.cache.ableToScale, σ.cache.ableToScaleRev, σ.reg.hpaAbleToScale) := by
        have h0 : ((conds.foldl (applyCondition (baseLabelOf a) a.name)
            { reg := publishBase a (cpuValOf metrics) σ.reg, cache := σ.cache }).cache.ableToScale,
            (conds.foldl (applyCondition (baseLabelOf a) a.name)
            { reg := publishBase a (cpuValOf metrics) σ.reg, cache := σ.cache }).cache.ableToScaleRev,
            (conds.foldl (applyCondition (baseLabelOf a) a.name)
            { reg := publishBase a (cpuValOf metrics) σ.reg, cache := σ.cache }).reg.hpaAbleToScale) =
            famFold (baseLabelOf a) a.name
              (σ.cache.ableToScale, σ.cache.ableToScaleRev,
               (publishBase a (cpuValOf metrics) σ.reg).hpaAbleToScale)
              (conds.filter (fun c => c.type == "AbleToScale")) :=
          condFold_ableToScale (baseLabelOf a) a.name conds
            { reg := publishBase a (cpuValOf metrics) σ.reg, cache := σ.cache }
        rw [publishBase_able, hA1, famFold_idem, ← hA1] at h0
        exact h0
      have hS2 : ((conds.foldl (applyCondition (baseLabelOf a) a.name)
          { reg := publishBase a (cpuValOf metrics) σ.reg, cache := σ.cache }).cache.scalingActive,
          (conds.foldl (applyCondition (baseLabelOf a) a.name)
          { reg := publishBase a (cpuValOf metrics) σ.reg, cache := σ.cache }).cache.scalingActiveRev,
          (conds.foldl (applyCondition (baseLabelOf a) a.name)
          { reg := publishBase a (cpuValOf metrics) σ.reg, cache := σ.cache }).reg.hpaScalingActive) =
          (σ.cache.scalingActive, σ.cache.scalingActiveRev, σ.reg.hpaScalingActive) := by
        have h0 : ((conds.foldl (applyCondition (baseLabelOf a) a.name)
            { reg := publishBase a (cpuValOf metrics) σ.reg, cache := σ.cache }).cache.scalingActive,
            (conds.foldl (applyCondition (baseLabelOf a) a.name)
            { reg := publishBase a (cpuValOf metrics) σ.reg, cache := σ.cache }).cache.scalingActiveRev,
            (conds.foldl (applyCondition (baseLabelOf a) a.name)
            { reg := publishBase a (cpuValOf metrics) σ.reg, cache := σ.cache }).reg.hpaScalingActive) =
            famFold (baseLabelOf a) a.name
              (σ.cache.scalingActive, σ.cache.scalingActiveRev,
               (publishBase a (cpuValOf metrics) σ.reg).hpaScalingActive)
              (conds.filter (fun c => c.type == "ScalingActive")) :=
          condFold_scalingActive (baseLabelOf a) a.name conds
            { reg := publishBase a (cpuValOf metrics) σ.reg, cache := σ.cache }
        rw [publishBase_scalingActive, hS1, famFold_idem, ← hS1] at h0
        exact h0
      have hL2 : ((conds.foldl (applyCondition (baseLabelOf a) a.name)
          { reg := publishBase a (cpuValOf metrics) σ.reg, cache := σ.cache }).cache.scalingLimited,
          (conds.foldl (applyCondition (baseLabelOf a) a.name)
          { reg := publishBase a (cpuValOf metrics) σ.reg, cache := σ.cache }).cache.scalingLimitedRev,
          (conds.foldl (applyCondition (baseLabelOf a) a.name)
          { reg := publishBase a (cpuValOf metrics) σ.reg, cache := σ.cache }).reg.hpaScalingLimited) =
          (σ.cache.scalingLimited, σ.cache.scalingLimitedRev, σ.reg.hpaScalingLimited) := by
        have h0 : ((conds.foldl (applyCondition (baseLabelOf a) a.name)
            { reg := publishBase a (cpuValOf metrics) σ.reg, cache := σ.cache }).cache.scalingLimited,
            (conds.foldl (applyCondition (baseLabelOf a) a.name)
            { reg := publishBase a (cpuValOf metrics) σ.reg, cache := σ.cache }).cache.scalingLimitedRev,
            (conds.foldl (applyCondition (baseLabelOf a) a.name)
            { reg := publishBase a (cpuValOf metrics) σ.reg, cache := σ.cache }).reg.hpaScalingLimited) =
            famFold (baseLabelOf a) a.name
              (σ.cache.scalingLimited, σ.cache.scalingLimitedRev,
               (publishBase a (cpuValOf metrics) σ.reg).hpaScalingLimited)
              (conds.filter (fun c => c.type == "ScalingLimited")) :=
          condFold_scalingLimited (baseLabelOf a) a.name conds
            { reg := publishBase a (cpuValOf metrics) σ.reg, cache := σ.cache }
        rw [publishBase_scalingLimited, hL1, famFold_idem, ← hL1] at h0
        exact h0
      -- the base-series fields after the first tick
      have hb1 : σ.reg.hpaCurrentPodsNum =
          upd st.reg.hpaCurrentPodsNum (baseLabelOf a) (some (a.currentReplicas : ℚ)) := by
        rw [hσ, condFold_keeps_f1]
        exact hf.1
      have hb2 : σ.reg.hpaDesiredPodsNum =
          upd st.reg.hpaDesiredPodsNum (baseLabelOf a) (some (a.desiredReplicas : ℚ)) := by
        rw [hσ, condFold_keeps_f2]
        exact hf.2.1
      have hb4 : σ.reg.hpaMaxPodsNum =
          upd st.reg.hpaMaxPodsNum (baseLabelOf a) (some (a.maxReplicas : ℚ)) := by
        rw [hσ, condFold_keeps_f4]
        exact hf.2.2.1
      have hb5 : σ.reg.hpaCurrentCpuValue =
          upd st.reg.hpaCurrentCpuValue (baseLabelOf a) (some ((cpuValOf metrics : Int) : ℚ)) := by
        rw [hσ, condFold_keeps_f5]
        exact hf.2.2.2.1
      apply tickState_ext
      · apply regState_ext
        · rw [condFold_keeps_f1]
          show (publishBase a (cpuValOf metrics) σ.reg).hpaCurrentPodsNum =
            σ.reg.hpaCurrentPodsNum
          rw [hg.1]
          exact upd_collapse hb1
        · rw [condFold_keeps_f2]
          show (publishBase a (cpuValOf metrics) σ.reg).hpaDesiredPodsNum =
            σ.reg.hpaDesiredPodsNum
          rw [hg.2.1]
          exact upd_collapse hb2
        · rw [condFold_keeps_f3]
          show (publishBase a (cpuValOf metrics) σ.reg).hpaMinPodsNum = σ.reg.hpaMinPodsNum
          rw [hg.2.2.2.2.1]
          cases hmin : a.minReplicas with
          | none => rfl
          | some m =>
            have hb3 : σ.reg.hpaMinPodsNum =
                upd st.reg.hpaMinPodsNum (baseLabelOf a) (some (m : ℚ)) := by
              rw [hσ, condFold_keeps_f3]
              have := hf.2.2.2.2.1
              rw [hmin] at this
              exact this
            exact upd_collapse hb3
        · rw [condFold_keeps_f4]
          show (publishBase a (cpuValOf metrics) σ.reg).hpaMaxPodsNum = σ.reg.hpaMaxPodsNum
          rw [hg.2.2.1]
          exact upd_collapse hb4
        · rw [condFold_keeps_f5]
          show (publishBase a (cpuValOf metrics) σ.reg).hpaCurrentCpuValue =
            σ.reg.hpaCurrentCpuValue
          rw [hg.2.2.2.1]
          exact upd_collapse hb5
        · rw [condFold_keeps_f6]
          show (publishBase a (cpuValOf metrics) σ.reg).hpaCurrentCpuPercentage =
            σ.reg.hpaCurrentCpuPercentage
          rw [hg.2.2.2.2.2.1]
          cases hcur : a.currentCPUUtilizationPercentage with
          | none => rfl
          | some p =>
            have hb6 : σ.reg.hpaCurrentCpuPercentage =
                upd st.reg.hpaCurrentCpuPercentage (baseLabelOf a) (some (p : ℚ)) := by
              rw [hσ, condFold_keeps_f6]
              have := hf.2.2.2.2.2.1
              rw [hcur] at this
              exact this
            exact upd_collapse hb6
        · rw [condFold_keeps_f7]
          show (publishBase a (cpuValOf metrics) σ.reg).hpaTargetCpuPercentage =
            σ.reg.hpaTargetCpuPercentage
          rw [hg.2.2.2.2.2.2.1]
          cases htgt : a.targetCPUUtilizationPercentage with
          | none => rfl
          | some p =>
            have hb7 : σ.reg.hpaTargetCpuPercentage =
                upd st.reg.hpaTargetCpuPercentage (baseLabelOf a) (some (p : ℚ)) := by
              rw [hσ, condFold_keeps_f7]
              have := hf.2.2.2.2.2.2.1
              rw [htgt] at this
              exact this
            exact upd_collapse hb7
        · rw [condFold_keeps_f8]
          show (publishBase a (cpuValOf metrics) σ.reg).hpaLastScaleSecond =
            σ.reg.hpaLastScaleSecond
          rw [hg.2.2.2.2.2.2.2]
          cases hls : a.lastScaleTimeUnix with
          | none => rfl
          | some t =>
            have hb8 : σ.reg.hpaLastScaleSecond =
                upd st.reg.hpaLastScaleSecond (baseLabelOf a) (some (t : ℚ)) := by
              rw [hσ, condFold_keeps_f8]
              have := hf.2.2.2.2.2.2.2
              rw [hls] at this
              exact this
            exact upd_collapse hb8
        · exact congrArg (fun t => t.2.2) hA2
        · exact congrArg (fun t => t.2.2) hS2
        · exact congrArg (fun t => t.2.2) hL2
      · apply cacheState_ext
        · exact congrArg (fun t => t.1) hA2
        · exact congrArg (fun t => t.2.1) hA2
        · exact congrArg (fun t => t.1) hS2
        · exact congrArg (fun t => t.2.1) hS2
        · exact congrArg (fun t => t.1) hL2
        · exact congrArg (fun t => t.2.1) hL2

end HpaExporter.V3

namespace HpaExporter.V3

theorem upd_comm {κ α : Type} [DecidableEq κ] (m : κ → Option α) (k1 k2 : κ)
    (v1 v2 : Option α) (h : k1 ≠ k2) :
    upd (upd m k1 v1) k2 v2 = upd (upd m k2 v2) k1 v1 := by
  funext k
  by_cases h2 : k = k2
  · subst h2
    rw [upd_self, upd_ne _ _ _ _ (Ne.symm h), upd_self]
  · rw [upd_ne _ _ _ _ h2]
    by_cases h1 : k = k1
    · subst h1
      rw [upd_self, upd_self]
    · rw [upd_ne _ _ _ _ h1, upd_ne _ _ _ _ h1, upd_ne _ _ _ _ h2]

theorem famFold_cacheF_ne (b : BaseLabels) (n : String) :
    ∀ (l : List Condition) (s : FamState) (n' : String), n' ≠ n →
      (famFold b n s l).1 n' = s.1 n' := by
  intro l
  induction l with
  | nil => intro s n' h; rfl
  | cons c l' ih =>
    intro s n' h
    rw [famFold_cons, ih _ n' h]
    exact upd_ne _ _ _ _ h

theorem famFold_cacheR_ne (b : BaseLabels) (n : String) :
    ∀ (l : List Condition) (s : FamState) (n' : String), n' ≠ n →
      (famFold b n s l).2.1 n' = s.2.1 n' := by
  intro l
  induction l with
  | nil => intro s n' h; rfl
  | cons c l' ih =>
    intro s n' h
    rw [famFold_cons, ih _ n' h]
    exact upd_ne _ _ _ _ h

theorem famFold_comm (b1 b2 : BaseLabels) (n1 n2 : String)
    (hb : b1 ≠ b2) (hn : n1 ≠ n2) (l1 l2 : List Condition) (s : FamState) :
    famFold b2 n2 (famFold b1 n1 s l1) l2 =
      famFold b1 n1 (famFold b2 n2 s l2) l1 := by
  cases l1 with
  | nil => rfl
  | cons c1 t1 =>
    cases l2 with
    | nil => rfl
    | cons c2 t2 =>
      obtain ⟨cf, cr, fam⟩ := s
      set σ1 := famFold b1 n1 (cf, cr, fam) (c1 :: t1) with hσ1
      set σ2 := famFold b2 n2 (cf, cr, fam) (c2 :: t2) with hσ2
      have e1F : σ1.1 = upd cf n1 (some (makeAnnotCondLabels (lastCond c1 t1)).1) :=
        famFold_cacheF b1 n1 t1 c1 cf cr fam
      have e1R : σ1.2.1 = upd cr n1 (some (makeAnnotCondLabels (lastCond c1 t1)).2) :=
        famFold_cacheR b1 n1 t1 c1 cf cr fam
      have e2F : σ2.1 = upd cf n2 (some (makeAnnotCondLabels (lastCond c2 t2)).1) :=
        famFold_cacheF b2 n2 t2 c2 cf cr fam
      have e2R : σ2.2.1 = upd cr n2 (some (makeAnnotCondLabels (lastCond c2 t2)).2) :=
        famFold_cacheR b2 n2 t2 c2 cf cr fam
      have hL1 : famFold b2 n2 σ1 (c2 :: t2) =
          ((famFold b2 n2 σ1 (c2 :: t2)).1,
           (famFold b2 n2 σ1 (c2 :: t2)).2.1,
           (famFold b2 n2 σ1 (c2 :: t2)).2.2) := rfl
      have hL2 : famFold b1 n1 σ2 (c1 :: t1) =
          ((famFold b1 n1 σ2 (c1 :: t1)).1,
           (famFold b1 n1 σ2 (c1 :: t1)).2.1,
           (famFold b1 n1 σ2 (c1 :: t1)).2.2) := rfl
      rw [hL1, hL2]
      have hcf : (famFold b2 n2 σ1 (c2 :: t2)).1 = (famFold b1 n1 σ2 (c1 :: t1)).1 := by
        have a1 : (famFold b2 n2 σ1 (c2 :: t2)).1 =
            upd σ1.1 n2 (some (makeAnnotCondLabels (lastCond c2 t2)).1) :=
          famFold_cacheF b2 n2 t2 c2 σ1.1 σ1.2.1 σ1.2.2
        have a2 : (famFold b1 n1 σ2 (c1 :: t1)).1 =
            upd σ2.1 n1 (some (makeAnnotCondLabels (lastCond c1 t1)).1) :=
          famFold_cacheF b1 n1 t1 c1 σ2.1 σ2.2.1 σ2.2.2
        rw [a1, a2, e1F, e2F, upd_comm _ _ _ _ _ hn]
      have hcr : (famFold b2 n2 σ1 (c2 :: t2)).2.1 = (famFold b1 n1 σ2 (c1 :: t1)).2.1 := by
        have a1 : (famFold b2 n2 σ1 (c2 :: t2)).2.1 =
            upd σ1.2.1 n2 (some (makeAnnotCondLabels (lastCond c2 t2)).2) :=
          famFold_cacheR b2 n2 t2 c2 σ1.1 σ1.2.1 σ1.2.2
        have a2 : (famFold b1 n1 σ2 (c1 :: t1)).2.1 =
            upd σ2.2.1 n1 (some (makeAnnotCondLabels (lastCond c1 t1)).2) :=
          famFold_cacheR b1 n1 t1 c1 σ2.1 σ2.2.1 σ2.2.2
        rw [a1, a2, e1R, e2R, upd_comm _ _ _ _ _ hn]
      have hfam : (famFold b2 n2 σ1 (c2 :: t2)).2.2 = (famFold b1 n1 σ2 (c1 :: t1)).2.2 := by
        funext k
        obtain ⟨k1, k2⟩ := k
        by_cases g1 : b1 = k1
        · subst g1
          have hA : (famFold b2 n2 σ1 (c2 :: t2)).2.2 (b1, k2) = σ1.2.2 (b1, k2) :=
            famFold_fam_ne b2 n2 (c2 :: t2) σ1 (b1, k2) hb
          have hB : (famFold b1 n1 σ2 (c1 :: t1)).2.2 (b1, k2) =
              if k2 = (makeAnnotCondLabels (lastCond c1 t1)).1 then some 1
              else if k2 = (makeAnnotCondLabels (lastCond c1 t1)).2 then some 0
              else if σ2.1 n1 = some k2 ∨ σ2.2.1 n1 = some k2 ∨
                  k2 ∈ (c1 :: t1).dropLast.flatMap condPair then none
              else σ2.2.2 (b1, k2) :=
            famFold_fam_at b1 n1 t1 c1 σ2.1 σ2.2.1 σ2.2.2 k2
          have hC : σ1.2.2 (b1, k2) =
              if k2 = (makeAnnotCondLabels (lastCond c1 t1)).1 then some 1
              else if k2 = (makeAnnotCondLabels (lastCond c1 t1)).2 then some 0
              else if cf n1 = some k2 ∨ cr n1 = some k2 ∨
                  k2 ∈ (c1 :: t1).dropLast.flatMap condPair then none
              else fam (b1, k2) := famFold_fam_at b1 n1 t1 c1 cf cr fam k2
          have hx1 : σ2.1 n1 = cf n1 := by
            rw [e2F, upd_ne _ _ _ _ hn]
          have hx2 : σ2.2.1 n1 = cr n1 := by
            rw [e2R, upd_ne _ _ _ _ hn]
          have hx3 : σ2.2.2 (b1, k2) = fam (b1, k2) :=
            famFold_fam_ne b2 n2 (c2 :: t2) (cf, cr, fam) (b1, k2) hb
          rw [hA, hB, hC, hx1, hx2, hx3]
        · have hA : (famFold b1 n1 σ2 (c1 :: t1)).2.2 (k1, k2) = σ2.2.2 (k1, k2) :=
            famFold_fam_ne b1 n1 (c1 :: t1) σ2 (k1, k2) (fun h => g1 h.symm)
          by_cases g2 : b2 = k1
          · subst g2
            have hB : (famFold b2 n2 σ1 (c2 :: t2)).2.2 (b2, k2) =
                if k2 = (makeAnnotCondLabels (lastCond c2 t2)).1 then some 1
                else if k2 = (makeAnnotCondLabels (lastCond c2 t2)).2 then some 0
                else if σ1.1 n2 = some k2 ∨ σ1.2.1 n2 = some k2 ∨
                    k2 ∈ (c2 :: t2).dropLast.flatMap condPair then none
                else σ1.2.2 (b2, k2) :=
              famFold_fam_at b2 n2 t2 c2 σ1.1 σ1.2.1 σ1.2.2 k2
            have hC : σ2.2.2 (b2, k2) =
                if k2 = (makeAnnotCondLabels (lastCond c2 t2)).1 then some 1
                else if k2 = (makeAnnotCondLabels (lastCond c2 t2)).2 then some 0
                else if cf n2 = some k2 ∨ cr n2 = some k2 ∨
                    k2 ∈ (c2 :: t2).dropLast.flatMap condPair then none
                else fam (b2, k2) := famFold_fam_at b2 n2 t2 c2 cf cr fam k2
            have hx1 : σ1.1 n2 = cf n2 := by
              rw [e1F, upd_ne _ _ _ _ (Ne.symm hn)]
            have hx2 : σ1.2.1 n2 = cr n2 := by
              rw [e1R, upd_ne _ _ _ _ (Ne.symm hn)]
            have hx3 : σ1.2.2 (b2, k2) = fam (b2, k2) :=
              famFold_fam_ne b1 n1 (c1 :: t1) (cf, cr, fam) (b2, k2) (Ne.symm hb)
            rw [hA, hB, hC, hx1, hx2, hx3]
          · have hB : (famFold b2 n2 σ1 (c2 :: t2)).2.2 (k1, k2) = σ1.2.2 (k1, k2) :=
              famFold_fam_ne b2 n2 (c2 :: t2) σ1 (k1, k2) (fun h => g2 h.symm)
            have hC : σ1.2.2 (k1, k2) = fam (k1, k2) :=
              famFold_fam_ne b1 n1 (c1 :: t1) (cf, cr, fam) (k1, k2) (fun h => g1 h.symm)
            have hD : σ2.2.2 (k1, k2) = fam (k1, k2) :=
              famFold_fam_ne b2 n2 (c2 :: t2) (cf, cr, fam) (k1, k2) (fun h => g2 h.symm)
            rw [hA, hB, hC, hD]
      rw [hcf, hcr, hfam]

end HpaExporter.V3

namespace HpaExporter.V3

/-- Conditional set used by the optional base-series fields. -/
def updIf (o : Option Int) (b : BaseLabels) (m : BaseLabels → Option ℚ) :
    BaseLabels → Option ℚ :=
  match o with
  | some v => upd m b (some (v : ℚ))
  | none => m

theorem updIf_comm (o1 o2 : Option Int) (b1 b2 : BaseLabels)
    (m : BaseLabels → Option ℚ) (hb : b1 ≠ b2) :
    updIf o2 b2 (updIf o1 b1 m) = updIf o1 b1 (updIf o2 b2 m) := by
  cases o1 with
  | none => rfl
  | some v1 =>
    cases o2 with
    | none => rfl
    | some v2 => exact upd_comm m b1 b2 _ _ hb

theorem baseLabelOf_ne (a1 a2 : Hpa) (h : a1.name ≠ a2.name) :
    baseLabelOf a1 ≠ baseLabelOf a2 := by
  intro he
  exact h (congrArg BaseLabels.hpa_name he)

theorem processHpa_skip (st : TickState) (a : Hpa)
    (h : a.currentMetricsAnno = none ∨ a.conditionsAnno = none) :
    processHpa st a = st := by
  rcases h with h | h
  · simp [processHpa, h]
  · cases hm : a.currentMetricsAnno with
    | none => simp [processHpa, hm]
    | some m => simp [processHpa, hm, h]

end HpaExporter.V3

namespace HpaExporter.V3

theorem processHpa_comm (st : TickState) (a1 a2 : Hpa) (hname : a1.name ≠ a2.name) :
    processHpa (processHpa st a1) a2 = processHpa (processHpa st a2) a1 := by
  cases h1m : a1.currentMetricsAnno with
  | none =>
    rw [processHpa_skip st a1 (Or.inl h1m), processHpa_skip (processHpa st a2) a1 (Or.inl h1m)]
  | some metrics1 =>
  cases h1c : a1.conditionsAnno with
  | none =>
    rw [processHpa_skip st a1 (Or.inr h1c), processHpa_skip (processHpa st a2) a1 (Or.inr h1c)]
  | some conds1 =>
  cases h2m : a2.currentMetricsAnno with
  | none =>
    rw [processHpa_skip (processHpa st a1) a2 (Or.inl h2m), processHpa_skip st a2 (Or.inl h2m)]
  | some metrics2 =>
  cases h2c : a2.conditionsAnno with
  | none =>
    rw [processHpa_skip (processHpa st a1) a2 (Or.inr h2c), processHpa_skip st a2 (Or.inr h2c)]
  | some conds2 =>
  have hb : baseLabelOf a1 ≠ baseLabelOf a2 := baseLabelOf_ne a1 a2 hname
  rw [processHpa_ok st a1 metrics1 conds1 h1m h1c]
  set σ1 := conds1.foldl (applyCondition (baseLabelOf a1) a1.name)
    { reg := publishBase a1 (cpuValOf metrics1) st.reg, cache := st.cache } with hσ1
  rw [processHpa_ok σ1 a2 metrics2 conds2 h2m h2c]
  rw [processHpa_ok st a2 metrics2 conds2 h2m h2c]
  set σ2 := conds2.foldl (applyCondition (baseLabelOf a2) a2.name)
    { reg := publishBase a2 (cpuValOf metrics2) st.reg, cache := st.cache } with hσ2
  rw [processHpa_ok σ2 a1 metrics1 conds1 h1m h1c]
  have hf1 := publishBase_fields a1 (cpuValOf metrics1) st.reg
  have hf2 := publishBase_fields a2 (cpuValOf metrics2) st.reg
  have hg1 := publishBase_fields a1 (cpuValOf metrics1) σ2.reg
  have hg2 := publishBase_fields a2 (cpuValOf metrics2) σ1.reg
  -- family triples
  have tA1 : (σ1.cache.ableToScale, σ1.cache.ableToScaleRev, σ1.reg.hpaAbleToScale) =
      famFold (baseLabelOf a1) a1.name
        (st.cache.ableToScale, st.cache.ableToScaleRev, st.reg.hpaAbleToScale)
        (conds1.filter (fun c => c.type == "AbleToScale")) := by
    rw [hσ1]
    have h0 : ((conds1.foldl (applyCondition (baseLabelOf a1) a1.name)
        { reg := publishBase a1 (cpuValOf metrics1) st.reg, cache := st.cache }).cache.ableToScale,
        (conds1.foldl (applyCondition (baseLabelOf a1) a1.name)
        { reg := publishBase a1 (cpuValOf metrics1) st.reg, cache := st.cache }).cache.ableToScaleRev,
        (conds1.foldl (applyCondition (baseLabelOf a1) a1.name)
        { reg := publishBase a1 (cpuValOf metrics1) st.reg, cache := st.cache }).reg.hpaAbleToScale) =
        famFold (baseLabelOf a1) a1.name
          (st.cache.ableToScale, st.cache.ableToScaleRev,
           (publishBase a1 (cpuValOf metrics1) st.reg).hpaAbleToScale)
          (conds1.filter (fun c => c.type == "AbleToScale")) :=
      condFold_ableToScale (baseLabelOf a1) a1.name conds1
        { reg := publishBase a1 (cpuValOf metrics1) st.reg, cache := st.cache }
    rw [publishBase_able] at h0
    exact h0
  have tS1 : (σ1.cache.scalingActive, σ1.cache.scalingActiveRev, σ1.reg.hpaScalingActive) =
      famFold (baseLabelOf a1) a1.name
        (st.cache.scalingActive, st.cache.scalingActiveRev, st.reg.hpaScalingActive)
        (conds1.filter (fun c => c.type == "ScalingActive")) := by
    rw [hσ1]
    have h0 : ((conds1.foldl (applyCondition (baseLabelOf a1) a1.name)
        { reg := publishBase a1 (cpuValOf metrics1) st.reg, cache := st.cache }).cache.scalingActive,
        (conds1.foldl (applyCondition (baseLabelOf a1) a1.name)
        { reg := publishBase a1 (cpuValOf metrics1) st.reg, cache := st.cache }).cache.scalingActiveRev,
        (conds1.foldl (applyCondition (baseLabelOf a1) a1.name)
        { reg := publishBase a1 (cpuValOf metrics1) st.reg, cache := st.cache }).reg.hpaScalingActive) =
        famFold (baseLabelOf a1) a1.name
          (st.cache.scalingActive, st.cache.scalingActiveRev,
           (publishBase a1 (cpuValOf metrics1) st.reg).hpaScalingActive)
          (conds1.filter (fun c => c.type == "ScalingActive")) :=
      condFold_scalingActive (baseLabelOf a1) a1.name conds1
        { reg := publishBase a1 (cpuValOf metrics1) st.reg, cache := st.cache }
    rw [publishBase_scalingActive] at h0
    exact h0
  have tL1 : (σ1.cache.scalingLimited, σ1.cache.scalingLimitedRev, σ1.reg.hpaScalingLimited) =
      famFold (baseLabelOf a1) a1.name
        (st.cache.scalingLimited, st.cache.scalingLimitedRev, st.reg.hpaScalingLimited)
        (conds1.filter (fun c => c.type == "ScalingLimited")) := by
    rw [hσ1]
    have h0 : ((conds1.foldl (applyCondition (baseLabelOf a1) a1.name)
        { reg := publishBase a1 (cpuValOf metrics1) st.reg, cache := st.cache }).cache.scalingLimited,
        (conds1.foldl (applyCondition (baseLabelOf a1) a1.name)
        { reg := publishBase a1 (cpuValOf metrics1) st.reg, cache := st.cache }).cache.scalingLimitedRev,
        (conds1.foldl (applyCondition (baseLabelOf a1) a1.name)
        { reg := publishBase a1 (cpuValOf metrics1) st.reg, cache := st.cache }).reg.hpaScalingLimited) =
        famFold (baseLabelOf a1) a1.name
          (st.cache.scalingLimited, st.cache.scalingLimitedRev,
           (publishBase a1 (cpuValOf metrics1) st.reg).hpaScalingLimited)
          (conds1.filter (fun c => c.type == "ScalingLimited")) :=
      condFold_scalingLimited (baseLabelOf a1) a1.name conds1
        { reg := publishBase a1 (cpuValOf metrics1) st.reg, cache := st.cache }
    rw [publishBase_scalingLimited] at h0
    exact h0
  have tA2 : (σ2.cache.ableToScale, σ2.cache.ableToScaleRev, σ2.reg.hpaAbleToScale) =
      famFold (baseLabelOf a2) a2.name
        (st.cache.ableToScale, st.cache.ableToScaleRev, st.reg.hpaAbleToScale)
        (conds2.filter (fun c => c.type == "AbleToScale")) := by
    rw [hσ2]
    have h0 : ((conds2.foldl (applyCondition (baseLabelOf a2) a2.name)
        { reg := publishBase a2 (cpuValOf metrics2) st.reg, cache := st.cache }).cache.ableToScale,
        (conds2.foldl (applyCondition (baseLabelOf a2) a2.name)
        { reg := publishBase a2 (cpuValOf metrics2) st.reg, cache := st.cache }).cache.ableToScaleRev,
        (conds2.foldl (applyCondition (baseLabelOf a2) a2.name)
        { reg := publishBase a2 (cpuValOf metrics2) st.reg, cache := st.cache }).reg.hpaAbleToScale) =
        famFold (baseLabelOf a2) a2.name
          (st.cache.ableToScale, st.cache.ableToScaleRev,
           (publishBase a2 (cpuValOf metrics2) st.reg).hpaAbleToScale)
          (conds2.filter (fun c => c.type == "AbleToScale")) :=
      condFold_ableToScale (baseLabelOf a2) a2.name conds2
        { reg := publishBase a2 (cpuValOf metrics2) st.reg, cache := st.cache }
    rw [publishBase_able] at h0
    exact h0
  have tS2 : (σ2.cache.scalingActive, σ2.cache.scalingActiveRev, σ2.reg.hpaScalingActive) =
      famFold (baseLabelOf a2) a2.name
        (st.cache.scalingActive, st.cache.scalingActiveRev, st.reg.hpaScalingActive)
        (conds2.filter (fun c => c.type == "ScalingActive")) := by
    rw [hσ2]
    have h0 : ((conds2.foldl (applyCondition (baseLabelOf a2) a2.name)
        { reg := publishBase a2 (cpuValOf metrics2) st.reg, cache := st.cache }).cache.scalingActive,
        (conds2.foldl (applyCondition (baseLabelOf a2) a2.name)
        { reg := publishBase a2 (cpuValOf metrics2) st.reg, cache := st.cache }).cache.scalingActiveRev,
        (conds2.foldl (applyCondition (baseLabelOf a2) a2.name)
        { reg := publishBase a2 (cpuValOf metrics2) st.reg, cache := st.cache }).reg.hpaScalingActive) =
        famFold (baseLabelOf a2) a2.name
          (st.cache.scalingActive, st.cache.scalingActiveRev,
           (publishBase a2 (cpuValOf metrics2) st.reg).hpaScalingActive)
          (conds2.filter (fun c => c.type == "ScalingActive")) :=
      condFold_scalingActive (baseLabelOf a2) a2.name conds2
        { reg := publishBase a2 (cpuValOf metrics2) st.reg, cache := st.cache }
    rw [publishBase_scalingActive] at h0
    exact h0
  have tL2 : (σ2.cache.scalingLimited, σ2.cache.scalingLimitedRev, σ2.reg.hpaScalingLimited) =
      famFold (baseLabelOf a2) a2.name
        (st.cache.scalingLimited, st.cache.scalingLimitedRev, st.reg.hpaScalingLimited)
        (conds2.filter (fun c => c.type == "ScalingLimited")) := by
    rw [hσ2]
    have h0 : ((conds2.foldl (applyCondition (baseLabelOf a2) a2.name)
        { reg := publishBase a2 (cpuValOf metrics2) st.reg, cache := st.cache }).cache.scalingLimited,
        (conds2.foldl (applyCondition (baseLabelOf a2) a2.name)
        { reg := publishBase a2 (cpuValOf metrics2) st.reg, cache := st.cache }).cache.scalingLimitedRev,
        (conds2.foldl (applyCondition (baseLabelOf a2) a2.name)
        { reg := publishBase a2 (cpuValOf metrics2) st.reg, cache := st.cache }).reg.hpaScalingLimited) =
        famFold (baseLabelOf a2) a2.name
          (st.cache.scalingLimited, st.cache.scalingLimitedRev,
           (publishBase a2 (cpuValOf metrics2) st.reg).hpaScalingLimited)
          (conds2.filter (fun c => c.type == "ScalingLimited")) :=
      condFold_scalingLimited (baseLabelOf a2) a2.name conds2
        { reg := publishBase a2 (cpuValOf metrics2) st.reg, cache := st.cache }
    rw [publishBase_scalingLimited] at h0
    exact h0
  have TA : ((conds2.foldl (applyCondition (baseLabelOf a2) a2.name)
      { reg := publishBase a2 (cpuValOf metrics2) σ1.reg, cache := σ1.cache }).cache.ableToScale,
      (conds2.foldl (applyCondition (baseLabelOf a2) a2.name)
      { reg := publishBase a2 (cpuValOf metrics2) σ1.reg, cache := σ1.cache }).cache.ableToScaleRev,
      (conds2.foldl (applyCondition (baseLabelOf a2) a2.name)
      { reg := publishBase a2 (cpuValOf metrics2) σ1.reg, cache := σ1.cache }).reg.hpaAbleToScale) =
      ((conds1.foldl (applyCondition (baseLabelOf a1) a1.name)
      { reg := publishBase a1 (cpuValOf metrics1) σ2.reg, cache := σ2.cache }).cache.ableToScale,
      (conds1.foldl (applyCondition (baseLabelOf a1) a1.name)
      { reg := publishBase a1 (cpuValOf metrics1) σ2.reg, cache := σ2.cache }).cache.ableToScaleRev,
      (conds1.foldl (applyCondition (baseLabelOf a1) a1.name)
      { reg := publishBase a1 (cpuValOf metrics1) σ2.reg, cache := σ2.cache }).reg.hpaAbleToScale) := by
    have hTL : ((conds2.foldl (applyCondition (baseLabelOf a2) a2.name)
        { reg := publishBase a2 (cpuValOf metrics2) σ1.reg, cache := σ1.cache }).cache.ableToScale,
        (conds2.foldl (applyCondition (baseLabelOf a2) a2.name)
        { reg := publishBase a2 (cpuValOf metrics2) σ1.reg, cache := σ1.cache }).cache.ableToScaleRev,
        (conds2.foldl (applyCondition (baseLabelOf a2) a2.name)
        { reg := publishBase a2 (cpuValOf metrics2) σ1.reg, cache := σ1.cache }).reg.hpaAbleToScale) =
        famFold (baseLabelOf a2) a2.name
          (σ1.cache.ableToScale, σ1.cache.ableToScaleRev,
           (publishBase a2 (cpuValOf metrics2) σ1.reg).hpaAbleToScale)
          (conds2.filter (fun c => c.type == "AbleToScale")) :=
      condFold_ableToScale (baseLabelOf a2) a2.name conds2
        { reg := publishBase a2 (cpuValOf metrics2) σ1.reg, cache := σ1.cache }
    rw [publishBase_able] at hTL
    have hTR : ((conds1.foldl (applyCondition (baseLabelOf a1) a1.name)
        { reg := publishBase a1 (cpuValOf metrics1) σ2.reg, cache := σ2.cache }).cache.ableToScale,
        (conds1.foldl (applyCondition (baseLabelOf a1) a1.name)
        { reg := publishBase a1 (cpuValOf metrics1) σ2.reg, cache := σ2.cache }).cache.ableToScaleRev,
        (conds1.foldl (applyCondition (baseLabelOf a1) a1.name)
        { reg := publishBase a1 (cpuValOf metrics1) σ2.reg, cache := σ2.cache }).reg.hpaAbleToScale) =
        famFold (baseLabelOf a1) a1.name
          (σ2.cache.ableToScale, σ2.cache.ableToScaleRev,
           (publishBase a1 (cpuValOf metrics1) σ2.reg).hpaAbleToScale)
          (conds1.filter (fun c => c.type == "AbleToScale")) :=
      condFold_ableToScale (baseLabelOf a1) a1.name conds1
        { reg := publishBase a1 (cpuValOf metrics1) σ2.reg, cache := σ2.cache }
    rw [publishBase_able] at hTR
    rw [tA1, famFold_comm (baseLabelOf a1) (baseLabelOf a2) a1.name a2.name hb hname
      (conds1.filter (fun c => c.type == "AbleToScale"))
      (conds2.filter (fun c => c.type == "AbleToScale"))] at hTL
    rw [tA2] at hTR
    exact hTL.trans hTR.symm
  have TS : ((conds2.foldl (applyCondition (baseLabelOf a2) a2.name)
      { reg := publishBase a2 (cpuValOf metrics2) σ1.reg, cache := σ1.cache }).cache.scalingActive,
      (conds2.foldl (applyCondition (baseLabelOf a2) a2.name)
      { reg := publishBase a2 (cpuValOf metrics2) σ1.reg, cache := σ1.cache }).cache.scalingActiveRev,
      (conds2.foldl (applyCondition (baseLabelOf a2) a2.name)
      { reg := publishBase a2 (cpuValOf metrics2) σ1.reg, cache := σ1.cache }).reg.hpaScalingActive) =
      ((conds1.foldl (applyCondition (baseLabelOf a1) a1.name)
      { reg := publishBase a1 (cpuValOf metrics1) σ2.reg, cache := σ2.cache }).cache.scalingActive,
      (conds1.foldl (applyCondition (baseLabelOf a1) a1.name)
      { reg := publishBase a1 (cpuValOf metrics1) σ2.reg, cache := σ2.cache }).cache.scalingActiveRev,
      (conds1.foldl (applyCondition (baseLabelOf a1) a1.name)
      { reg := publishBase a1 (cpuValOf metrics1) σ2.reg, cache := σ2.cache }).reg.hpaScalingActive) := by
    have hTL : ((conds2.foldl (applyCondition (baseLabelOf a2) a2.name)
        { reg := publishBase a2 (cpuValOf metrics2) σ1.reg, cache := σ1.cache }).cache.scalingActive,
        (conds2.foldl (applyCondition (baseLabelOf a2) a2.name)
        { reg := publishBase a2 (cpuValOf metrics2) σ1.reg, cache := σ1.cache }).cache.scalingActiveRev,
        (conds2.foldl (applyCondition (baseLabelOf a2) a2.name)
        { reg := publishBase a2 (cpuValOf metrics2) σ1.reg, cache := σ1.cache }).reg.hpaScalingActive) =
        famFold (baseLabelOf a2) a2.name
          (σ1.cache.scalingActive, σ1.cache.scalingActiveRev,
           (publishBase a2 (cpuValOf metrics2) σ1.reg).hpaScalingActive)
          (conds2.filter (fun c => c.type == "ScalingActive")) :=
      condFold_scalingActive (baseLabelOf a2) a2.name conds2
        { reg := publishBase a2 (cpuValOf metrics2) σ1.reg, cache := σ1.cache }
    rw [publishBase_scalingActive] at hTL
    have hTR : ((conds1.foldl (applyCondition (baseLabelOf a1) a1.name)
        { reg := publishBase a1 (cpuValOf metrics1) σ2.reg, cache := σ2.cache }).cache.scalingActive,
        (conds1.foldl (applyCondition (baseLabelOf a1) a1.name)
        { reg := publishBase a1 (cpuValOf metrics1) σ2.reg, cache := σ2.cache }).cache.scalingActiveRev,
        (conds1.foldl (applyCondition (baseLabelOf a1) a1.name)
        { reg := publishBase a1 (cpuValOf metrics1) σ2.reg, cache := σ2.cache }).reg.hpaScalingActive) =
        famFold (baseLabelOf a1) a1.name
          (σ2.cache.scalingActive, σ2.cache.scalingActiveRev,
           (publishBase a1 (cpuValOf metrics1) σ2.reg).hpaScalingActive)
          (conds1.filter (fun c => c.type == "ScalingActive")) :=
      condFold_scalingActive (baseLabelOf a1) a1.name conds1
        { reg := publishBase a1 (cpuValOf metrics1) σ2.reg, cache := σ2.cache }
    rw [publishBase_scalingActive] at hTR
    rw [tS1, famFold_comm (baseLabelOf a1) (baseLabelOf a2) a1.name a2.name hb hname
      (conds1.filter (fun c => c.type == "ScalingActive"))
      (conds2.filter (fun c => c.type == "ScalingActive"))] at hTL
    rw [tS2] at hTR
    exact hTL.trans hTR.symm
  have TL : ((conds2.foldl (applyCondition (baseLabelOf a2) a2.name)
      { reg := publishBase a2 (cpuValOf metrics2) σ1.reg, cache := σ1.cache }).cache.scalingLimited,
      (conds2.foldl (applyCondition (baseLabelOf a2) a2.name)
      { reg := publishBase a2 (cpuValOf metrics2) σ1.reg, cache := σ1.cache }).cache.scalingLimitedRev,
      (conds2.foldl (applyCondition (baseLabelOf a2) a2.name)
      { reg := publishBase a2 (cpuValOf metrics2) σ1.reg, cache := σ1.cache }).reg.hpaScalingLimited) =
      ((conds1.foldl (applyCondition (baseLabelOf a1) a1.name)
      { reg := publishBase a1 (cpuValOf metrics1) σ2.reg, cache := σ2.cache }).cache.scalingLimited,
      (conds1.foldl (applyCondition (baseLabelOf a1) a1.name)
      { reg := publishBase a1 (cpuValOf metrics1) σ2.reg, cache := σ2.cache }).cache.scalingLimitedRev,
      (conds1.foldl (applyCondition (baseLabelOf a1) a1.name)
      { reg := publishBase a1 (cpuValOf metrics1) σ2.reg, cache := σ2.cache }).reg.hpaScalingLimited) := by
    have hTL : ((conds2.foldl (applyCondition (baseLabelOf a2) a2.name)
        { reg := publishBase a2 (cpuValOf metrics2) σ1.reg, cache := σ1.cache }).cache.scalingLimited,
        (conds2.foldl (applyCondition (baseLabelOf a2) a2.name)
        { reg := publishBase a2 (cpuValOf metrics2) σ1.reg, cache := σ1.cache }).cache.scalingLimitedRev,
        (conds2.foldl (applyCondition (baseLabelOf a2) a2.name)
        { reg := publishBase a2 (cpuValOf metrics2) σ1.reg, cache := σ1.cache }).reg.hpaScalingLimited) =
        famFold (baseLabelOf a2) a2.name
          (σ1.cache.scalingLimited, σ1.cache.scalingLimitedRev,
           (publishBase a2 (cpuValOf metrics2) σ1.reg).hpaScalingLimited)
          (conds2.filter (fun c => c.type == "ScalingLimited")) :=
      condFold_scalingLimited (baseLabelOf a2) a2.name conds2
        { reg := publishBase a2 (cpuValOf metrics2) σ1.reg, cache := σ1.cache }
    rw [publishBase_scalingLimited] at hTL
    have hTR : ((conds1.foldl (applyCondition (baseLabelOf a1) a1.name)
        { reg := publishBase a1 (cpuValOf metrics1) σ2.reg, cache := σ2.cache }).cache.scalingLimited,
        (conds1.foldl (applyCondition (baseLabelOf a1) a1.name)
        { reg := publishBase a1 (cpuValOf metrics1) σ2.reg, cache := σ2.cache }).cache.scalingLimitedRev,
        (conds1.foldl (applyCondition (baseLabelOf a1) a1.name)
        { reg := publishBase a1 (cpuValOf metrics1) σ2.reg, cache := σ2.cache }).reg.hpaScalingLimited) =
        famFold (baseLabelOf a1) a1.name
          (σ2.cache.scalingLimited, σ2.cache.scalingLimitedRev,
           (publishBase a1 (cpuValOf metrics1) σ2.reg).hpaScalingLimited)
          (conds1.filter (fun c => c.type == "ScalingLimited")) :=
      condFold_scalingLimited (baseLabelOf a1) a1.name conds1
        { reg := publishBase a1 (cpuValOf metrics1) σ2.reg, cache := σ2.cache }
    rw [publishBase_scalingLimited] at hTR
    rw [tL1, famFold_comm (baseLabelOf a1) (baseLabelOf a2) a1.name a2.name hb hname
      (conds1.filter (fun c => c.type == "ScalingLimited"))
      (conds2.filter (fun c => c.type == "ScalingLimited"))] at hTL
    rw [tL2] at hTR
    exact hTL.trans hTR.symm
  apply tickState_ext
  · apply regState_ext
    · rw [condFold_keeps_f1, condFold_keeps_f1]
      show (publishBase a2 (cpuValOf metrics2) σ1.reg).hpaCurrentPodsNum =
        (publishBase a1 (cpuValOf metrics1) σ2.reg).hpaCurrentPodsNum
      have l0 : σ1.reg.hpaCurrentPodsNum =
          upd st.reg.hpaCurrentPodsNum (baseLabelOf a1) (some (a1.currentReplicas : ℚ)) := by
        rw [hσ1, condFold_keeps_f1]
        exact hf1.1
      have r0 : σ2.reg.hpaCurrentPodsNum =
          upd st.reg.hpaCurrentPodsNum (baseLabelOf a2) (some (a2.currentReplicas : ℚ)) := by
        rw [hσ2, condFold_keeps_f1]
        exact hf2.1
      rw [hg2.1, hg1.1, l0, r0]
      exact upd_comm _ _ _ _ _ hb
    · rw [condFold_keeps_f2, condFold_keeps_f2]
      show (publishBase a2 (cpuValOf metrics2) σ1.reg).hpaDesiredPodsNum =
        (publishBase a1 (cpuValOf metrics1) σ2.reg).hpaDesiredPodsNum
      have l0 : σ1.reg.hpaDesiredPodsNum =
          upd st.reg.hpaDesiredPodsNum (baseLabelOf a1) (some (a1.desiredReplicas : ℚ)) := by
        rw [hσ1, condFold_keeps_f2]
        exact hf1.2.1
      have r0 : σ2.reg.hpaDesiredPodsNum =
          upd st.reg.hpaDesiredPodsNum (baseLabelOf a2) (some (a2.desiredReplicas : ℚ)) := by
        rw [hσ2, condFold_keeps_f2]
        exact hf2.2.1
      rw [hg2.2.1, hg1.2.1, l0, r0]
      exact upd_comm _ _ _ _ _ hb
    · rw [condFold_keeps_f3, condFold_keeps_f3]
      show (publishBase a2 (cpuValOf metrics2) σ1.reg).hpaMinPodsNum =
        (publishBase a1 (cpuValOf metrics1) σ2.reg).hpaMinPodsNum
      have l0 : σ1.reg.hpaMinPodsNum =
          updIf a1.minReplicas (baseLabelOf a1) st.reg.hpaMinPodsNum := by
        rw [hσ1, condFold_keeps_f3]
        exact hf1.2.2.2.2.1
      have r0 : σ2.reg.hpaMinPodsNum =
          updIf a2.minReplicas (baseLabelOf a2) st.reg.hpaMinPodsNum := by
        rw [hσ2, condFold_keeps_f3]
        exact hf2.2.2.2.2.1
      have gl : (publishBase a2 (cpuValOf metrics2) σ1.reg).hpaMinPodsNum =
          updIf a2.minReplicas (baseLabelOf a2) σ1.reg.hpaMinPodsNum := hg2.2.2.2.2.1
      have gr : (publishBase a1 (cpuValOf metrics1) σ2.reg).hpaMinPodsNum =
          updIf a1.minReplicas (baseLabelOf a1) σ2.reg.hpaMinPodsNum := hg1.2.2.2.2.1
      rw [gl, gr, l0, r0]
      exact updIf_comm a1.minReplicas a2.minReplicas _ _ _ hb
    · rw [condFold_keeps_f4, condFold_keeps_f4]
      show (publishBase a2 (cpuValOf metrics2) σ1.reg).hpaMaxPodsNum =
        (publishBase a1 (cpuValOf metrics1) σ2.reg).hpaMaxPodsNum
      have l0 : σ1.reg.hpaMaxPodsNum =
          upd st.reg.hpaMaxPodsNum (baseLabelOf a1) (some (a1.maxReplicas : ℚ)) := by
        rw [hσ1, condFold_keeps_f4]
        exact hf1.2.2.1
      have r0 : σ2.reg.hpaMaxPodsNum =
          upd st.reg.hpaMaxPodsNum (baseLabelOf a2) (some (a2.maxReplicas : ℚ)) := by
        rw [hσ2, condFold_keeps_f4]
        exact hf2.2.2.1
      rw [hg2.2.2.1, hg1.2.2.1, l0, r0]
      exact upd_comm _ _ _ _ _ hb
    · rw [condFold_keeps_f5, condFold_keeps_f5]
      show (publishBase a2 (cpuValOf metrics2) σ1.reg).hpaCurrentCpuValue =
        (publishBase a1 (cpuValOf metrics1) σ2.reg).hpaCurrentCpuValue
      have l0 : σ1.reg.hpaCurrentCpuValue =
          upd st.reg.hpaCurrentCpuValue (baseLabelOf a1) (some ((cpuValOf metrics1 : Int) : ℚ)) := by
        rw [hσ1, condFold_keeps_f5]
        exact hf1.2.2.2.1
      have r0 : σ2.reg.hpaCurrentCpuValue =
          upd st.reg.hpaCurrentCpuValue (baseLabelOf a2) (some ((cpuValOf metrics2 : Int) : ℚ)) := by
        rw [hσ2, condFold_keeps_f5]
        exact hf2.2.2.2.1
      rw [hg2.2.2.2.1, hg1.2.2.2.1, l0, r0]
      exact upd_comm _ _ _ _ _ hb
    · rw [condFold_keeps_f6, condFold_keeps_f6]
      show (publishBase a2 (cpuValOf metrics2) σ1.reg).hpaCurrentCpuPercentage =
        (publishBase a1 (cpuValOf metrics1) σ2.reg).hpaCurrentCpuPercentage
      have l0 : σ1.reg.hpaCurrentCpuPercentage =
          updIf a1.currentCPUUtilizationPercentage (baseLabelOf a1)
            st.reg.hpaCurrentCpuPercentage := by
        rw [hσ1, condFold_keeps_f6]
        exact hf1.2.2.2.2.2.1
      have r0 : σ2.reg.hpaCurrentCpuPercentage =
          updIf a2.currentCPUUtilizationPercentage (baseLabelOf a2)
            st.reg.hpaCurrentCpuPercentage := by
        rw [hσ2, condFold_keeps_f6]
        exact hf2.2.2.2.2.2.1
      have gl : (publishBase a2 (cpuValOf metrics2) σ1.reg).hpaCurrentCpuPercentage =
          updIf a2.currentCPUUtilizationPercentage (baseLabelOf a2)
            σ1.reg.hpaCurrentCpuPercentage := hg2.2.2.2.2.2.1
      have gr : (publishBase a1 (cpuValOf metrics1) σ2.reg).hpaCurrentCpuPercentage =
          updIf a1.currentCPUUtilizationPercentage (baseLabelOf a1)
            σ2.reg.hpaCurrentCpuPercentage := hg1.2.2.2.2.2.1
      rw [gl, gr, l0, r0]
      exact updIf_comm _ _ _ _ _ hb
    · rw [condFold_keeps_f7, condFold_keeps_f7]
      show (publishBase a2 (cpuValOf metrics2) σ1.reg).hpaTargetCpuPercentage =
        (publishBase a1 (cpuValOf metrics1) σ2.reg).hpaTargetCpuPercentage
      have l0 : σ1.reg.hpaTargetCpuPercentage =
          updIf a1.targetCPUUtilizationPercentage (baseLabelOf a1)
            st.reg.hpaTargetCpuPercentage := by
        rw [hσ1, condFold_keeps_f7]
        exact hf1.2.2.2.2.2.2.1
      have r0 : σ2.reg.hpaTargetCpuPercentage =
          updIf a2.targetCPUUtilizationPercentage (baseLabelOf a2)
            st.reg.hpaTargetCpuPercentage := by
        rw [hσ2, condFold_keeps_f7]
        exact hf2.2.2.2.2.2.2.1
      have gl : (publishBase a2 (cpuValOf metrics2) σ1.reg).hpaTargetCpuPercentage =
          updIf a2.targetCPUUtilizationPercentage (baseLabelOf a2)
            σ1.reg.hpaTargetCpuPercentage := hg2.2.2.2.2.2.2.1
      have gr : (publishBase a1 (cpuValOf metrics1) σ2.reg).hpaTargetCpuPercentage =
          updIf a1.targetCPUUtilizationPercentage (baseLabelOf a1)
            σ2.reg.hpaTargetCpuPercentage := hg1.2.2.2.2.2.2.1
      rw [gl, gr, l0, r0]
      exact updIf_comm _ _ _ _ _ hb
    · rw [condFold_keeps_f8, condFold_keeps_f8]
      show (publishBase a2 (cpuValOf metrics2) σ1.reg).hpaLastScaleSecond =
        (publishBase a1 (cpuValOf metrics1) σ2.reg).hpaLastScaleSecond
      have l0 : σ1.reg.hpaLastScaleSecond =
          updIf a1.lastScaleTimeUnix (baseLabelOf a1) st.reg.hpaLastScaleSecond := by
        rw [hσ1, condFold_keeps_f8]
        exact hf1.2.2.2.2.2.2.2
      have r0 : σ2.reg.hpaLastScaleSecond =
          updIf a2.lastScaleTimeUnix (baseLabelOf a2) st.reg.hpaLastScaleSecond := by
        rw [hσ2, condFold_keeps_f8]
        exact hf2.2.2.2.2.2.2.2
      have gl : (publishBase a2 (cpuValOf metrics2) σ1.reg).hpaLastScaleSecond =
          updIf a2.lastScaleTimeUnix (baseLabelOf a2) σ1.reg.hpaLastScaleSecond :=
        hg2.2.2.2.2.2.2.2
      have gr : (publishBase a1 (cpuValOf metrics1) σ2.reg).hpaLastScaleSecond =
          updIf a1.lastScaleTimeUnix (baseLabelOf a1) σ2.reg.hpaLastScaleSecond :=
        hg1.2.2.2.2.2.2.2
      rw [gl, gr, l0, r0]
      exact updIf_comm _ _ _ _ _ hb
    · exact congrArg (fun t => t.2.2) TA
    · exact congrArg (fun t => t.2.2) TS
    · exact congrArg (fun t => t.2.2) TL
  · apply cacheState_ext
    · exact congrArg (fun t => t.1) TA
    · exact congrArg (fun t => t.2.1) TA
    · exact congrArg (fun t => t.1) TS
    · exact congrArg (fun t => t.2.1) TS
    · exact congrArg (fun t => t.1) TL
    · exact congrArg (fun t => t.2.1) TL

end HpaExporter.V3

namespace HpaExporter.V3

theorem processHpa_foldl_comm (a : Hpa) :
    ∀ (L : List Hpa) (s : TickState), a.name ∉ L.map Hpa.name →
      processHpa (L.foldl processHpa s) a = L.foldl processHpa (processHpa s a) := by
  intro L
  induction L with
  | nil => intro s h; rfl
  | cons x L' ih =>
    intro s h
    rw [List.map_cons, List.mem_cons] at h
    push_neg at h
    rw [List.foldl_cons, List.foldl_cons, ih (processHpa s x) h.2,
      processHpa_comm s x a (fun he => h.1 he.symm)]

theorem metricsTick_idem_names (L : List Hpa) :
    ∀ (st : TickState), (L.map Hpa.name).Nodup →
      L.foldl processHpa (L.foldl processHpa st) = L.foldl processHpa st := by
  induction L with
  | nil => intro st h; rfl
  | cons a L' ih =>
    intro st h
    rw [List.map_cons, List.nodup_cons] at h
    rw [List.foldl_cons, List.foldl_cons,
      processHpa_foldl_comm a L' (processHpa st a) h.1, processHpa_idem st a]
    exact ih (processHpa st a) h.2

end HpaExporter.V3

namespace HpaExporter

/-- Claim C5: publishing the same unchanged snapshot twice in a row
leaves the registry state identical after the second tick to what it was
after the first.  In the reset-based variant (`part_004`) this holds for
every snapshot and prior state because a successful tick's result is a
pure function of the snapshot; in the cache-based variant (`part_003`) it
holds for every snapshot whose autoscaler names are pairwise distinct
(the condition-label caches are keyed by name alone), with the registry
and the caches both unchanged by the second tick. -/
theorem C5_idempotent_publishing :
    (∀ (l : List V4.Hpa) (st : V4.RegState),
      V4.metricsTick (Except.ok l) (V4.metricsTick (Except.ok l) st) =
        V4.metricsTick (Except.ok l) st) ∧
    (∀ (l : List V3.Hpa) (st : V3.TickState),
      (l.map V3.Hpa.name).Nodup →
      V3.metricsTick (Except.ok l) (V3.metricsTick (Except.ok l) st) =
        V3.metricsTick (Except.ok l) st) := by
  constructor
  · intro l st
    rfl
  · intro l st h
    exact V3.metricsTick_idem_names l st h

/-- Witness for C5 at a concrete input: a two-autoscaler snapshot with
distinct names, ticked twice from the empty state. -/
theorem C5_idempotent_publishing_witness :
    (([hpaC9good, hpaC9bad].map V3.Hpa.name)).Nodup ∧
    V3.metricsTick (Except.ok [hpaC9good, hpaC9bad])
        (V3.metricsTick (Except.ok [hpaC9good, hpaC9bad]) emptyState3) =
      V3.metricsTick (Except.ok [hpaC9good, hpaC9bad]) emptyState3 :=
  ⟨by decide, C5_idempotent_publishing.2 [hpaC9good, hpaC9bad] emptyState3 (by decide)⟩

end HpaExporter
